import Mathlib

/-!
Verification development for the financial-assistant backend
(`src/backend/src/assistant/tools.py`, `semantic.py`, `orchestrator.py`).

The Python code is shallowly embedded: monetary amounts are rationals,
timestamps are integer seconds on a linear time line, Python `round(x, n)`
is modelled as exact rational rounding half-to-even at `n` decimals,
Python's stable `list.sort(reverse=True)` is `List.mergeSort` with a
`≥`-style comparator, and Mongo documents become records whose fields carry
the `dict.get` defaults that the source applies.
-/

/-! ## Basic string helpers (Python `str` operations) -/

/-- Python `str.lower()` restricted to ASCII (all phrases matched by the
source are ASCII). -/
def pyLower (s : List Char) : List Char := s.map Char.toLower

/-- Whitespace test used by Python `str.strip()` for the characters that
occur in this code base. -/
def pySpace (c : Char) : Bool := c == ' ' || c == '\t' || c == '\n' || c == '\r'

/-- Python `str.strip()`. -/
def pyStrip (s : List Char) : List Char :=
  ((s.dropWhile pySpace).reverse.dropWhile pySpace).reverse

/-- Does `s` start with `pat`? (helper for substring containment). -/
def hasPref : List Char → List Char → Bool
  | [], _ => true
  | _ :: _, [] => false
  | p :: ps, c :: cs => p == c && hasPref ps cs

/-- Python `pat in s` substring containment. -/
def containsTok (pat : List Char) : List Char → Bool
  | [] => hasPref pat []
  | c :: cs => hasPref pat (c :: cs) || containsTok pat cs

/-- `pat in s.lower()` on `String`s. -/
def strHas (s : String) (pat : String) : Bool :=
  containsTok pat.data (pyLower s.data)

/-- Python slicing `s[:n]` on strings. -/
def strTake (s : String) (n : ℕ) : String := ⟨s.data.take n⟩

/-! ## Python `round` (banker's rounding), modelled exactly on `ℚ` -/

/-- Round half to even, to an integer. -/
def roundHalfEven (q : ℚ) : ℤ :=
  let f := ⌊q⌋
  let r := q - (f : ℚ)
  if r < 1/2 then f
  else if 1/2 < r then f + 1
  else if Even f then f else f + 1

/-- Python `round(x, 2)`. -/
def pyRound2 (q : ℚ) : ℚ := (roundHalfEven (q * 100) : ℚ) / 100

/-- Python `round(x, 1)`. -/
def pyRound1 (q : ℚ) : ℚ := (roundHalfEven (q * 10) : ℚ) / 10

/-- Python `round(x, 4)`. -/
def pyRound4 (q : ℚ) : ℚ := (roundHalfEven (q * 10000) : ℚ) / 10000

/-! ## Calendar model (Python `datetime` dates)

Python `datetime` values are modelled as a civil date plus seconds within
the day; `timedelta(days=n)` arithmetic steps the civil date.  Conversions
between civil dates and linear day counts use the standard civil-calendar
algorithms with the Unix epoch as day `0`. -/

/-- Gregorian leap-year rule. -/
def isLeap (y : ℤ) : Bool := (y % 4 == 0 && y % 100 != 0) || (y % 400 == 0)

/-- Length of month `m` of year `y` (months `1`–`12`). -/
def daysInMonth (y : ℤ) (m : ℕ) : ℕ :=
  if m = 2 then (if isLeap y then 29 else 28)
  else if m = 4 ∨ m = 6 ∨ m = 9 ∨ m = 11 then 30
  else 31

/-- A Python `datetime`: civil date plus seconds within the day. -/
structure PyDate where
  year : ℤ
  month : ℕ
  day : ℕ
  secs : ℤ
  deriving DecidableEq

/-- `datetime(now.year, now.month, now.day)` — truncate to midnight. -/
def dateFloor (d : PyDate) : PyDate := ⟨d.year, d.month, d.day, 0⟩

/-- Subtract one day (`- timedelta(days=1)`), stepping the civil calendar. -/
def predDay (d : PyDate) : PyDate :=
  if 1 < d.day then ⟨d.year, d.month, d.day - 1, d.secs⟩
  else if 1 < d.month then ⟨d.year, d.month - 1, daysInMonth d.year (d.month - 1), d.secs⟩
  else ⟨d.year - 1, 12, 31, d.secs⟩

/-- Add one day (`+ timedelta(days=1)`). -/
def succDay (d : PyDate) : PyDate :=
  if d.day < daysInMonth d.year d.month then ⟨d.year, d.month, d.day + 1, d.secs⟩
  else if d.month < 12 then ⟨d.year, d.month + 1, 1, d.secs⟩
  else ⟨d.year + 1, 1, 1, d.secs⟩

/-- `- timedelta(days=n)`. -/
def subDays (n : ℕ) (d : PyDate) : PyDate := predDay^[n] d

/-- `+ timedelta(days=n)`. -/
def addDays (n : ℕ) (d : PyDate) : PyDate := succDay^[n] d

/-- Days since 1970-01-01 of the civil date `(y, m, d)`
(standard civil-from-days algorithm). -/
def daysFromCivil (y : ℤ) (m : ℕ) (d : ℕ) : ℤ :=
  let y' : ℤ := if m ≤ 2 then y - 1 else y
  let era : ℤ := (if 0 ≤ y' then y' else y' - 399) / 400
  let yoe : ℤ := y' - era * 400
  let mp : ℤ := ((m : ℤ) + 9) % 12
  let doy : ℤ := (153 * mp + 2) / 5 + (d : ℤ) - 1
  let doe : ℤ := yoe * 365 + yoe / 4 - yoe / 100 + doy
  era * 146097 + doe - 719468

/-- Inverse of `daysFromCivil`: civil `(year, month, day)` of a linear day
count. -/
def civilFromDays (z : ℤ) : ℤ × ℕ × ℕ :=
  let z' := z + 719468
  let era : ℤ := (if 0 ≤ z' then z' else z' - 146096) / 146097
  let doe : ℤ := z' - era * 146097
  let yoe : ℤ := (doe - doe / 1460 + doe / 36524 - doe / 146096) / 365
  let y : ℤ := yoe + era * 400
  let doy : ℤ := doe - (365 * yoe + yoe / 4 - yoe / 100)
  let mp : ℤ := (5 * doy + 2) / 153
  let dd : ℤ := doy - (153 * mp + 2) / 5 + 1
  let m : ℤ := if mp < 10 then mp + 3 else mp - 9
  (if m ≤ 2 then y + 1 else y, m.toNat, dd.toNat)

/-- Timestamp (seconds since epoch) of a `PyDate`. -/
def dtToInstant (d : PyDate) : ℤ := daysFromCivil d.year d.month d.day * 86400 + d.secs

/-- Python `datetime.weekday()`: Monday `0` … Sunday `6`. -/
def weekdayOf (d : PyDate) : ℤ := (daysFromCivil d.year d.month d.day + 3) % 7

/-- Civil day index of a timestamp (used to model `strftime("%Y-%m-%d")`). -/
def dayIndex (t : ℤ) : ℤ := Int.fdiv t 86400

/-- Civil `(year, month)` of a timestamp (models `strftime("%Y-%m")`). -/
def monthKey (t : ℤ) : ℤ × ℕ :=
  let c := civilFromDays (dayIndex t)
  (c.1, c.2.1)

/-! ## Transactions

A Mongo transaction document, as the statistics engine reads it after the
`dict.get` defaults in the source (`amount` default `0.0`,
`transaction_type` default `"debit"`, `category` default `"Other"`,
`description` default `""`).  `t` is the timestamp produced by
`_as_datetime`, in integer seconds on a linear time line. -/

structure Tx where
  amount : ℚ
  transaction_type : String
  category : String
  description : String
  t : ℤ
  deriving DecidableEq

/-- Seconds in a day (`timedelta(days=1).total_seconds()`). -/
def secsPerDay : ℤ := 86400

/-! ## `AssistantTools.financial_snapshot` -/

/-- One entry of a category total list. -/
structure CategoryAmount where
  name : String
  amount : ℚ
  deriving DecidableEq

/-- The dictionary returned by `financial_snapshot`. -/
structure Snapshot where
  window_days : ℕ
  transaction_count : ℕ
  total_debit : ℚ
  total_credit : ℚ
  net_cashflow : ℚ
  top_categories : List CategoryAmount
  deriving DecidableEq

/-- Accumulate per-category totals in Python dict insertion order
(`categories[cat] = categories.get(cat, 0.0) + amount`). -/
def categoryTotals (txs : List Tx) : List (String × ℚ) :=
  txs.foldl
    (fun acc tx =>
      if acc.any (fun p => p.1 == tx.category) then
        acc.map (fun p => if p.1 == tx.category then (p.1, p.2 + tx.amount) else p)
      else acc ++ [(tx.category, tx.amount)])
    []

/-- Stable descending sort by amount, as Python
`sorted(..., key=amount, reverse=True)`. -/
def sortByAmountDesc (l : List (String × ℚ)) : List (String × ℚ) :=
  l.mergeSort (fun a b => decide (b.2 ≤ a.2))

/-- `AssistantTools.financial_snapshot` over the user's transaction list
(`docs`), the window length in days, and the current instant `now`
(`datetime.utcnow()`).  The source filter keeps a document when its
timestamp is at or after `now - days` and never consults an upper bound. -/
def financial_snapshot (docs : List Tx) (days : ℕ) (now : ℤ) : Snapshot :=
  let cutoff := now - (days : ℤ) * secsPerDay
  let recent := docs.filter (fun d => cutoff ≤ d.t)
  let debit := ((recent.filter (fun d => d.transaction_type == "debit")).map (·.amount)).sum
  let credit := ((recent.filter (fun d => d.transaction_type == "credit")).map (·.amount)).sum
  let cats := categoryTotals (recent.filter (fun d => d.transaction_type == "debit"))
  let top := (sortByAmountDesc cats).take 5
  { window_days := days
    transaction_count := recent.length
    total_debit := pyRound2 debit
    total_credit := pyRound2 credit
    net_cashflow := pyRound2 (credit - debit)
    top_categories := top.map (fun p => ⟨p.1, pyRound2 p.2⟩) }

/-- The debit sum the specification describes for the snapshot window
`[now - days, now]` (both bounds): "sums debit/credit amounts within
`[now-windowDays, now]`".  Stated from the spec's words, to compare the
source against the spec's window. -/
def specWindowDebitSum (docs : List Tx) (days : ℕ) (now : ℤ) : ℚ :=
  ((docs.filter
      (fun d => d.transaction_type == "debit" ∧
        now - (days : ℤ) * secsPerDay ≤ d.t ∧ d.t ≤ now)).map (·.amount)).sum

/-- Debit sum over the half-line the source actually uses
(timestamp at or after the cutoff, with no upper bound). -/
def codeWindowDebitSum (docs : List Tx) (days : ℕ) (now : ℤ) : ℚ :=
  ((docs.filter
      (fun d => d.transaction_type == "debit" ∧
        now - (days : ℤ) * secsPerDay ≤ d.t)).map (·.amount)).sum

/-- Credit analogue of `codeWindowDebitSum`. -/
def codeWindowCreditSum (docs : List Tx) (days : ℕ) (now : ℤ) : ℚ :=
  ((docs.filter
      (fun d => d.transaction_type == "credit" ∧
        now - (days : ℤ) * secsPerDay ≤ d.t)).map (·.amount)).sum

/-! ## `AssistantTools.analytics_report` -/

/-- `statistics.mean` (only applied to non-empty samples in the source). -/
def listMean (xs : List ℚ) : ℚ := xs.sum / xs.length

/-- `statistics.median`: sort, take the middle element, or the average of
the two middle elements. -/
def listMedian (xs : List ℚ) : ℚ :=
  let s := xs.mergeSort (fun a b => decide (a ≤ b))
  let n := s.length
  if n % 2 = 1 then s.getD (n / 2) 0
  else (s.getD (n / 2 - 1) 0 + s.getD (n / 2) 0) / 2

/-- `statistics.pstdev` squared: population variance. -/
def pvariance (xs : List ℚ) : ℚ :=
  ((xs.map (fun x => (x - listMean xs) ^ 2)).sum) / xs.length

/-- `statistics.pstdev`: population standard deviation. -/
noncomputable def pstdev (xs : List ℚ) : ℝ := Real.sqrt (pvariance xs)

/-- Python `max(items, key=amount)`: first maximal element. -/
def largestTx : List Tx → Option Tx
  | [] => none
  | a :: tl => some (tl.foldl (fun best x => if best.amount < x.amount then x else best) a)

/-- The `largest` sub-dictionary of a period summary. -/
structure LargestInfo where
  amount : ℚ
  description : String
  category : String
  t : ℤ
  deriving DecidableEq

/-- The per-period summary produced by the inner `summarize` helper of
`analytics_report`. -/
structure PeriodStats where
  count : ℕ
  total_spend : ℚ
  avg_spend : ℚ
  median_spend : ℚ
  largest : Option LargestInfo
  deriving DecidableEq

/-- The inner `summarize` helper of `analytics_report`. -/
def summarize (items : List Tx) : PeriodStats :=
  let amounts := items.map (·.amount)
  { count := items.length
    total_spend := pyRound2 amounts.sum
    avg_spend := pyRound2 (if items.isEmpty then 0 else listMean amounts)
    median_spend := pyRound2 (if items.isEmpty then 0 else listMedian amounts)
    largest := (largestTx items).map
      (fun l => ⟨pyRound2 l.amount, strTake l.description 120, l.category, l.t⟩) }

/-- The recent-window debit sample of `analytics_report`
(`start_recent <= dt <= now`, debit only). -/
def analyticsRecent (docs : List Tx) (days : ℕ) (now : ℤ) : List Tx :=
  docs.filter (fun d =>
    now - (days : ℤ) * secsPerDay ≤ d.t ∧ d.t ≤ now ∧ d.transaction_type == "debit")

/-- The previous-window debit sample of `analytics_report`
(`start_prev <= dt < start_recent`, debit only). -/
def analyticsPrevious (docs : List Tx) (days : ℕ) (now : ℤ) : List Tx :=
  docs.filter (fun d =>
    now - 2 * (days : ℤ) * secsPerDay ≤ d.t ∧ d.t < now - (days : ℤ) * secsPerDay ∧
      d.transaction_type == "debit")

/-- The guarded percentage-change convention used for both the period
change and the 7-day velocity: `(recent - prev) / prev * 100` when
`prev > 0`, else `0`. -/
def pctChangeOf (prevTotal recentTotal : ℚ) : ℚ :=
  if 0 < prevTotal then (recentTotal - prevTotal) / prevTotal * 100 else 0

/-- `spend_7`: debit spend in the last 7 days (summed over the recent
sample). -/
def spend7 (docs : List Tx) (days : ℕ) (now : ℤ) : ℚ :=
  (((analyticsRecent docs days now).filter
      (fun d => now - 7 * secsPerDay ≤ d.t)).map (·.amount)).sum

/-- `spend_prev_7`: debit spend in the 7 days before that (summed over all
fetched documents). -/
def spendPrev7 (docs : List Tx) (now : ℤ) : ℚ :=
  ((docs.filter (fun d =>
      now - 14 * secsPerDay ≤ d.t ∧ d.t < now - 7 * secsPerDay ∧
        d.transaction_type == "debit")).map (·.amount)).sum

/-- Python dict accumulation in insertion order
(`totals[k] = totals.get(k, 0.0) + v`), returned as `list(totals.items())`. -/
def accumTotals {κ : Type} [BEq κ] (pairs : List (κ × ℚ)) : List (κ × ℚ) :=
  pairs.foldl
    (fun acc kv =>
      if acc.any (fun p => p.1 == kv.1) then
        acc.map (fun p => if p.1 == kv.1 then (p.1, p.2 + kv.2) else p)
      else acc ++ [kv])
    []

/-- One entry of the analytics `top_categories` list. -/
structure CatShare where
  name : String
  amount : ℚ
  share_pct : ℚ
  deriving DecidableEq

/-- One entry of `monthly_trend`. -/
structure MonthSpend where
  month : ℤ × ℕ
  spend : ℚ
  deriving DecidableEq

/-- The `spend_velocity_7d` sub-dictionary. -/
structure Velocity where
  current_7d_spend : ℚ
  previous_7d_spend : ℚ
  change_pct : ℚ
  deriving DecidableEq

/-- One formatted anomaly entry. -/
structure Anomaly where
  amount : ℚ
  description : String
  category : String
  dateDay : ℤ
  deriving DecidableEq

/-- The dictionary returned by `analytics_report`. -/
structure Analytics where
  window_days : ℕ
  recent_period : PeriodStats
  previous_period : PeriodStats
  period_change_pct : ℚ
  top_categories : List CatShare
  monthly_trend : List MonthSpend
  spend_velocity_7d : Velocity
  anomalies : List Anomaly
  deriving DecidableEq

/-- `mean + 2 * pstdev` of the recent debit amounts. -/
noncomputable def anomalyThreshold (recent : List Tx) : ℝ :=
  (listMean (recent.map (·.amount)) : ℝ) + 2 * pstdev (recent.map (·.amount))

/-- Debit transactions at or above the threshold, stably sorted by amount
descending. -/
noncomputable def anomalyOutliers (recent : List Tx) : List Tx :=
  (recent.filter (fun x => anomalyThreshold recent ≤ (x.amount : ℝ))).mergeSort
    (fun a b => decide (b.amount ≤ a.amount))

/-- Formatting of one anomaly entry. -/
def anomalyFormat (x : Tx) : Anomaly :=
  ⟨pyRound2 x.amount, strTake x.description 120, x.category, dayIndex x.t⟩

/-- The `anomalies` list of `analytics_report`: empty below 8 samples,
otherwise the 5 largest outliers. -/
noncomputable def anomaliesOf (recent : List Tx) : List Anomaly :=
  if 8 ≤ recent.length then ((anomalyOutliers recent).take 5).map anomalyFormat else []

/-- `AssistantTools.analytics_report`. -/
noncomputable def analytics_report (docs : List Tx) (days : ℕ) (now : ℤ) : Analytics :=
  let recent := analyticsRecent docs days now
  let previous := analyticsPrevious docs days now
  let recent_stats := summarize recent
  let prev_stats := summarize previous
  let pct_change := pctChangeOf prev_stats.total_spend recent_stats.total_spend
  let cats := accumTotals (recent.map (fun d => (d.category, d.amount)))
  let top := (sortByAmountDesc cats).take 6
  let monthly := accumTotals (recent.map (fun d => (monthKey d.t, d.amount)))
  let monthlySorted := monthly.mergeSort (fun a b =>
    decide (a.1.1 < b.1.1 ∨ (a.1.1 = b.1.1 ∧ a.1.2 ≤ b.1.2)))
  let s7 := spend7 docs days now
  let sp7 := spendPrev7 docs now
  { window_days := days
    recent_period := recent_stats
    previous_period := prev_stats
    period_change_pct := pyRound1 pct_change
    top_categories := top.map (fun p =>
      ⟨p.1, pyRound2 p.2,
        pyRound1 (if 0 < recent_stats.total_spend
          then p.2 / recent_stats.total_spend * 100 else 0)⟩)
    monthly_trend := monthlySorted.map (fun p => ⟨p.1, pyRound2 p.2⟩)
    spend_velocity_7d :=
      ⟨pyRound2 s7, pyRound2 sp7, pyRound1 (pctChangeOf sp7 s7)⟩
    anomalies := anomaliesOf recent }

/-! ## `AssistantTools.transaction_summary` -/

/-- One display row of `transaction_summary`
(`strftime("%Y-%m-%d")` is modelled as the civil day index). -/
structure TxDisplay where
  dateDay : ℤ
  description : String
  category : String
  transaction_type : String
  amount : ℚ
  deriving DecidableEq

/-- The dictionary returned by `transaction_summary`. -/
structure TxSummary where
  start_day : ℤ
  end_day : ℤ
  days : ℤ
  transaction_count : ℕ
  total_debit : ℚ
  total_credit : ℚ
  net_cashflow : ℚ
  top_debit_categories : List CategoryAmount
  transactions : List TxDisplay
  deriving DecidableEq

/-- The `selected` list: documents with `start <= dt < end`, in fetch
order. -/
def tsSelected (docs : List Tx) (tstart tend : ℤ) : List Tx :=
  docs.filter (fun d => tstart ≤ d.t ∧ d.t < tend)

/-- `selected` after the stable in-place sort by timestamp descending. -/
def tsSorted (docs : List Tx) (tstart tend : ℤ) : List Tx :=
  (tsSelected docs tstart tend).mergeSort (fun a b => decide (b.t ≤ a.t))

/-- `max(5, min(limit, 20))`. -/
def txCap (limit : ℤ) : ℕ := (max 5 (min limit 20)).toNat

/-- Display formatting of one listed transaction. -/
def txDisplayOf (d : Tx) : TxDisplay :=
  ⟨dayIndex d.t, strTake d.description 120, d.category, d.transaction_type,
    pyRound2 d.amount⟩

/-- `AssistantTools.transaction_summary` over the fetched documents and the
parsed `[start, end)` instants. -/
def transaction_summary (docs : List Tx) (tstart tend : ℤ) (limit : ℤ) : TxSummary :=
  let selected := tsSorted docs tstart tend
  let debit := ((selected.filter (fun d => d.transaction_type == "debit")).map (·.amount)).sum
  let credit := ((selected.filter (fun d => d.transaction_type == "credit")).map (·.amount)).sum
  let cats := accumTotals
    ((selected.filter (fun d => d.transaction_type == "debit")).map
      (fun d => (d.category, d.amount)))
  let top := ((sortByAmountDesc cats).take 6).map (fun p => ⟨p.1, pyRound2 p.2⟩)
  { start_day := dayIndex tstart
    end_day := dayIndex tend
    days := max 1 (Int.fdiv (tend - tstart) 86400)
    transaction_count := selected.length
    total_debit := pyRound2 debit
    total_credit := pyRound2 credit
    net_cashflow := pyRound2 (credit - debit)
    top_debit_categories := top
    transactions := (selected.take (txCap limit)).map txDisplayOf }

/-- Debit sum of the documents inside `[start, end)`, as one conjunctive
filter. -/
def intervalDebitSum (docs : List Tx) (tstart tend : ℤ) : ℚ :=
  ((docs.filter (fun d =>
      d.transaction_type == "debit" ∧ tstart ≤ d.t ∧ d.t < tend)).map (·.amount)).sum

/-- Credit analogue of `intervalDebitSum`. -/
def intervalCreditSum (docs : List Tx) (tstart tend : ℤ) : ℚ :=
  ((docs.filter (fun d =>
      d.transaction_type == "credit" ∧ tstart ≤ d.t ∧ d.t < tend)).map (·.amount)).sum

/-! ## `SimpleSemanticSearch` (`semantic.py`)

Vectors over the `dims` hash slots are modelled as functions
`Fin dims → ℝ`; the Python-runtime string hash (`hash(token) % dims`) is an
arbitrary parameter `h`, since Python randomizes it per process. -/

/-- A corpus document (`SemanticDoc`). -/
structure SemanticDoc where
  source : String
  text : String
  metadata : List (String × String)
  deriving DecidableEq

/-- Is `c` matched by the token regex `[a-zA-Z0-9]+`? -/
def isTokenChar (c : Char) : Bool :=
  ('a' ≤ c && c ≤ 'z') || ('A' ≤ c && c ≤ 'Z') || ('0' ≤ c && c ≤ '9')

/-- Accumulator-style scanner for `tokenizeChars` (`cur` holds the current
run, reversed). -/
def tokenizeAux : List Char → List Char → List (List Char)
  | cur, [] => if cur.isEmpty then [] else [cur.reverse]
  | cur, c :: cs =>
    if isTokenChar c then tokenizeAux (c :: cur) cs
    else if cur.isEmpty then tokenizeAux [] cs
    else cur.reverse :: tokenizeAux [] cs

/-- `TOKEN_RE.findall(text.lower())`: maximal runs of alphanumeric
characters of the lower-cased text. -/
def tokenizeChars (s : List Char) : List (List Char) := tokenizeAux [] s

/-- `SimpleSemanticSearch._tokenize`. -/
def semTokenize (text : String) : List String :=
  (tokenizeChars (pyLower text.data)).map (fun l => ⟨l⟩)

/-- The raw hashed bag-of-words count vector (before normalization):
slot `i` counts the tokens with `hash(token) % dims = i`. -/
def rawVec (h : String → ℕ) (dims : ℕ) (text : String) : Fin dims → ℝ :=
  fun i => (((semTokenize text).filter (fun tok => h tok % dims = i.val)).length : ℝ)

/-- `sqrt(sum(v * v for v in vec)) or 1.0`: the norm, replaced by `1.0`
when zero. -/
noncomputable def embedNorm (h : String → ℕ) (dims : ℕ) (text : String) : ℝ :=
  let n := Real.sqrt (∑ i : Fin dims, rawVec h dims text i ^ 2)
  if n = 0 then 1 else n

/-- `SimpleSemanticSearch._embed`: the L2-normalized hashed bag-of-words
vector. -/
noncomputable def embed (h : String → ℕ) (dims : ℕ) (text : String) : Fin dims → ℝ :=
  fun i => rawVec h dims text i / embedNorm h dims text

/-- `SimpleSemanticSearch._cosine`: dot product. -/
noncomputable def cosineSim {dims : ℕ} (a b : Fin dims → ℝ) : ℝ :=
  ∑ i : Fin dims, a i * b i

/-- One scored search result. -/
structure ScoredDoc where
  score : ℝ
  source : String
  text : String
  metadata : List (String × String)

/-- `SimpleSemanticSearch.search`: score every non-blank document against
the query, sort by score descending (stably), and truncate to
`max(1, limit)` entries. -/
noncomputable def semSearch (h : String → ℕ) (dims : ℕ) (query : String)
    (docs : List SemanticDoc) (limit : ℤ) : List ScoredDoc :=
  let queryVec := embed h dims query
  let scored := (docs.filter (fun doc => !(pyStrip doc.text.data).isEmpty)).map
    (fun doc =>
      { score := cosineSim queryVec (embed h dims ⟨pyStrip doc.text.data⟩)
        source := doc.source
        text := ⟨pyStrip doc.text.data⟩
        metadata := doc.metadata })
  (scored.mergeSort (fun a b => decide (b.score ≤ a.score))).take (max 1 limit).toNat

/-! ## `AssistantTools.extract_time_range`

The source's two regular expressions (the `last N days/weeks/months`
search and the explicit-date token `findall`) are modelled as character
scanners with the same alternation order and backtracking behaviour, and
`_try_parse_date_token`'s `strptime` formats are modelled directive by
directive with CPython's alternation semantics. -/

/-- Is `c` a regex word character (`\w`, ASCII): alphanumeric or
underscore? -/
def isWordChar (c : Char) : Bool := isTokenChar c || c == '_'

/-- Digit-string to number. -/
def digitsToNat (ds : List Char) : ℕ :=
  ds.foldl (fun n c => n * 10 + (c.toNat - 48)) 0

/-- First `some` produced by `f` along a list (regex alternation order). -/
def firstSome {α β : Type} (f : α → Option β) : List α → Option β
  | [] => none
  | a :: as =>
    match f a with
    | some b => some b
    | none => firstSome f as

/-- The unit alternation `day|days|week|weeks|month|months` as a prefix
match (no trailing boundary, so `days` yields `day`). -/
def unitAlt (s : List Char) : Option String :=
  if hasPref "day".data s then some "day"
  else if hasPref "days".data s then some "days"
  else if hasPref "week".data s then some "week"
  else if hasPref "weeks".data s then some "weeks"
  else if hasPref "month".data s then some "month"
  else if hasPref "months".data s then some "months"
  else none

/-- Try `last\s+(\d+)\s+(unit)` anchored at the head of `s`. -/
def tryLastNAt (s : List Char) : Option (ℕ × String) :=
  if hasPref "last".data s then
    let rest := s.drop 4
    let sp := rest.takeWhile pySpace
    if sp.isEmpty then none
    else
      let rest2 := rest.dropWhile pySpace
      let ds := rest2.takeWhile Char.isDigit
      if ds.isEmpty then none
      else
        let rest3 := rest2.dropWhile Char.isDigit
        let sp2 := rest3.takeWhile pySpace
        if sp2.isEmpty then none
        else (unitAlt (rest3.dropWhile pySpace)).map (fun u => (digitsToNat ds, u))
  else none

/-- `re.search(r"last\s+(\d+)\s+(day|days|week|weeks|month|months)", text)`:
first position where the pattern matches. -/
def searchLastN : List Char → Option (ℕ × String)
  | [] => none
  | c :: cs =>
    match tryLastNAt (c :: cs) with
    | some r => some r
    | none => searchLastN cs

/-- Word-boundary after a token: the rest must not start with a word
character. -/
def boundaryOk (rest : List Char) : Bool :=
  match rest with
  | [] => true
  | c :: _ => !(isWordChar c)

/-- Exactly `n` leading digits. -/
def matchFixedDigits (n : ℕ) (s : List Char) : Option (List Char × List Char) :=
  let ds := s.take n
  if ds.length = n ∧ ds.all Char.isDigit then some (ds, s.drop n) else none

/-- Is `c` a slash or hyphen separator? -/
def isSep (c : Char) : Bool := c == '/' || c == '-'

/-- Date-token alternative A: `\d{4}-\d{2}-\d{2}` with trailing `\b`. -/
def matchDateA (s : List Char) : Option (List Char × List Char) :=
  match matchFixedDigits 4 s with
  | none => none
  | some (d1, r1) =>
    match r1 with
    | '-' :: r2 =>
      match matchFixedDigits 2 r2 with
      | none => none
      | some (d2, r3) =>
        match r3 with
        | '-' :: r4 =>
          match matchFixedDigits 2 r4 with
          | none => none
          | some (d3, r5) =>
            if boundaryOk r5 then some (d1 ++ '-' :: (d2 ++ '-' :: d3), r5) else none
        | _ => none
    | _ => none

/-- Date-token alternative B: one or two digits, a slash-or-hyphen
separator, one or two digits, another separator, then two to four digits,
with trailing word boundary — exploring the greedy digit-width choices in
backtracking order. -/
def matchDateB (s : List Char) : Option (List Char × List Char) :=
  firstSome (fun n1 =>
    match matchFixedDigits n1 s with
    | none => none
    | some (d1, r1) =>
      match r1 with
      | c1 :: r2 =>
        if isSep c1 then
          firstSome (fun n2 =>
            match matchFixedDigits n2 r2 with
            | none => none
            | some (d2, r3) =>
              match r3 with
              | c2 :: r4 =>
                if isSep c2 then
                  firstSome (fun n3 =>
                    match matchFixedDigits n3 r4 with
                    | none => none
                    | some (d3, r5) =>
                      if boundaryOk r5 then
                        some (d1 ++ c1 :: (d2 ++ c2 :: d3), r5)
                      else none) [4, 3, 2]
                else none
              | [] => none) [2, 1]
        else none
      | [] => none) [2, 1]

/-- Lower-case abbreviated month names, in the source alternation order. -/
def monthAbbrs : List (List Char) :=
  ["jan", "feb", "mar", "apr", "may", "jun",
   "jul", "aug", "sep", "oct", "nov", "dec"].map String.data

/-- Optional `,\s*\d{2,4}` year part of alternative C (with the trailing
`\b`). -/
def matchCYear (pre : List Char) (rest : List Char) : Option (List Char × List Char) :=
  match rest with
  | ',' :: r5 =>
    let sp2 := r5.takeWhile pySpace
    let r6 := r5.dropWhile pySpace
    firstSome (fun n =>
      match matchFixedDigits n r6 with
      | none => none
      | some (dy, r7) =>
        if boundaryOk r7 then some (pre ++ ',' :: (sp2 ++ dy), r7) else none) [4, 3, 2]
  | _ => none

/-- Date-token alternative C:
`(jan|…|dec)[a-z]*\s+\d{1,2}(,\s*\d{2,4})?` with trailing `\b`. -/
def matchDateC (s : List Char) : Option (List Char × List Char) :=
  firstSome (fun m =>
    if hasPref m s then
      let rest := s.drop 3
      let letters := rest.takeWhile (fun c => 'a' ≤ c && c ≤ 'z')
      let rest2 := rest.dropWhile (fun c => 'a' ≤ c && c ≤ 'z')
      let sp := rest2.takeWhile pySpace
      let rest3 := rest2.dropWhile pySpace
      if sp.isEmpty then none
      else
        firstSome (fun n =>
          match matchFixedDigits n rest3 with
          | none => none
          | some (ds, rest4) =>
            let pre := (m ++ letters ++ sp) ++ ds
            match matchCYear pre rest4 with
            | some r => some r
            | none => if boundaryOk rest4 then some (pre, rest4) else none) [2, 1]
    else none) monthAbbrs

/-- One date-token match attempt at the current position (alternatives in
pattern order). -/
def matchDateToken (s : List Char) : Option (List Char × List Char) :=
  match matchDateA s with
  | some r => some r
  | none =>
    match matchDateB s with
    | some r => some r
    | none => matchDateC s

/-- Fueled scanner for `re.findall` over the date-token pattern: `prevWord`
tracks whether the previous character was a word character (for the leading
`\b`). -/
def findDateTokensAux : ℕ → Bool → List Char → List (List Char)
  | 0, _, _ => []
  | _ + 1, _, [] => []
  | fuel + 1, prevWord, c :: cs =>
    if prevWord then findDateTokensAux fuel (isWordChar c) cs
    else
      match matchDateToken (c :: cs) with
      | some (tok, rest) => tok :: findDateTokensAux fuel true rest
      | none => findDateTokensAux fuel (isWordChar c) cs

/-- All date tokens of the text, left to right, non-overlapping. -/
def findDateTokens (s : List Char) : List (List Char) :=
  findDateTokensAux (s.length + 1) false s

/-- Replace comma by space (`token.replace(",", " ")`). -/
def commaToSpace (s : List Char) : List Char :=
  s.map (fun c => if c = ',' then ' ' else c)

/-- Collapse whitespace runs to single spaces (`re.sub(r"\s+", " ", s)`). -/
def collapseSpacesAux : Bool → List Char → List Char
  | _, [] => []
  | inRun, c :: cs =>
    if pySpace c then
      if inRun then collapseSpacesAux true cs else ' ' :: collapseSpacesAux true cs
    else c :: collapseSpacesAux false cs

/-- `re.sub(r"\s+", " ", s)`. -/
def collapseSpaces (s : List Char) : List Char := collapseSpacesAux false s

/-- Month-number candidates for the `%m` directive
(`1[0-2]|0[1-9]|[1-9]`): a valid two-digit match first, then a one-digit
match. -/
def monthCands (s : List Char) : List (ℕ × List Char) :=
  (match s with
   | a :: b :: r =>
     if a.isDigit ∧ b.isDigit then
       let v := digitsToNat [a, b]
       if ((a = '1' ∧ b ≤ '2') ∨ (a = '0' ∧ '1' ≤ b)) then [(v, r)] else []
     else []
   | _ => []) ++
  (match s with
   | a :: r => if '1' ≤ a ∧ a ≤ '9' then [(digitsToNat [a], r)] else []
   | _ => [])

/-- Day-number candidates for the `%d` directive
(`3[01]|[12]\d|0[1-9]|[1-9]`). -/
def dayCands (s : List Char) : List (ℕ × List Char) :=
  (match s with
   | a :: b :: r =>
     if a.isDigit ∧ b.isDigit then
       let v := digitsToNat [a, b]
       if ((a = '3' ∧ b ≤ '1') ∨ a = '1' ∨ a = '2' ∨ (a = '0' ∧ '1' ≤ b)) then [(v, r)]
       else []
     else []
   | _ => []) ++
  (match s with
   | a :: r => if '1' ≤ a ∧ a ≤ '9' then [(digitsToNat [a], r)] else []
   | _ => [])

/-- Four-digit year (`%Y`). -/
def year4Cands (s : List Char) : List (ℕ × List Char) :=
  match matchFixedDigits 4 s with
  | some (ds, r) => [(digitsToNat ds, r)]
  | none => []

/-- Two-digit year (`%y`), with CPython's century rule. -/
def year2Cands (s : List Char) : List (ℕ × List Char) :=
  match s with
  | a :: b :: r =>
    if a.isDigit ∧ b.isDigit then
      let v := digitsToNat [a, b]
      [(if v ≤ 68 then 2000 + v else 1900 + v, r)]
    else []
  | _ => []

/-- Lower-case full month names (for `%B`). -/
def monthFulls : List (List Char) :=
  ["january", "february", "march", "april", "may", "june", "july",
   "august", "september", "october", "november", "december"].map String.data

/-- Month-name candidates: each matching name as a prefix, with its month
number. -/
def monthNameCands (names : List (List Char)) (s : List Char) : List (ℕ × List Char) :=
  (names.zip (List.range' 1 12)).filterMap
    (fun p => if hasPref p.1 s then some (p.2, s.drop p.1.length) else none)

/-- A literal separator character. -/
def sepCands (c : Char) (s : List Char) : List (Unit × List Char) :=
  match s with
  | a :: r => if a = c then [((), r)] else []
  | _ => []

/-- Literal whitespace in a `strptime` format (matches `\s+`). -/
def wsCands (s : List Char) : List (Unit × List Char) :=
  let sp := s.takeWhile pySpace
  if sp.isEmpty then [] else [((), s.dropWhile pySpace)]

/-- Is `(y, m, d)` an existing calendar date (the `datetime` constructor
check inside `strptime`)? -/
def validCivil (y : ℤ) (m d : ℕ) : Bool :=
  1 ≤ y && y ≤ 9999 && 1 ≤ m && m ≤ 12 && 1 ≤ d && d ≤ daysInMonth y m

/-- Generic three-component format matcher with regex-style backtracking:
`p1 sep p2 sep p3`, requiring the whole string to be consumed. -/
def fmt3 (p1 p2 p3 : List Char → List (ℕ × List Char)) (sep : Char)
    (s : List Char) : Option (ℕ × ℕ × ℕ) :=
  firstSome (fun a =>
    firstSome (fun s1 =>
      firstSome (fun b =>
        firstSome (fun s2 =>
          firstSome (fun c =>
            if c.2.isEmpty then some (a.1, b.1, c.1) else none) (p3 s2.2))
          (sepCands sep b.2))
        (p2 s1.2))
      (sepCands sep a.2))
    (p1 s)

/-- Generic space-separated format matcher (`p1 \s+ p2 [\s+ p3]`). -/
def fmtSpace2 (p1 p2 : List Char → List (ℕ × List Char))
    (s : List Char) : Option (ℕ × ℕ) :=
  firstSome (fun a =>
    firstSome (fun s1 =>
      firstSome (fun b =>
        if b.2.isEmpty then some (a.1, b.1) else none) (p2 s1.2))
      (wsCands a.2))
    (p1 s)

/-- Generic space-separated three-part format matcher. -/
def fmtSpace3 (p1 p2 p3 : List Char → List (ℕ × List Char))
    (s : List Char) : Option (ℕ × ℕ × ℕ) :=
  firstSome (fun a =>
    firstSome (fun s1 =>
      firstSome (fun b =>
        firstSome (fun s2 =>
          firstSome (fun c =>
            if c.2.isEmpty then some (a.1, b.1, c.1) else none) (p3 s2.2))
          (wsCands b.2))
        (p2 s1.2))
      (wsCands a.2))
    (p1 s)

/-- `AssistantTools._try_parse_date_token`: try every `strptime` format in
the source's order on the cleaned token; month-only formats default the
year to `now.year`. -/
def tryParseDateToken (token : List Char) (now : PyDate) : Option PyDate :=
  let cleaned := pyStrip (collapseSpaces (commaToSpace (pyStrip token)))
  if cleaned.isEmpty then none
  else
    let checked : ℤ × ℕ × ℕ → Option PyDate := fun c =>
      if validCivil c.1 c.2.1 c.2.2 then some ⟨c.1, c.2.1, c.2.2, 0⟩ else none
    let tries : List (Option PyDate) :=
      [ (fmt3 year4Cands monthCands dayCands '-' cleaned).bind
          (fun r => checked (r.1, r.2.1, r.2.2)),
        (fmt3 dayCands monthCands year4Cands '-' cleaned).bind
          (fun r => checked (r.2.2, r.2.1, r.1)),
        (fmt3 dayCands monthCands year4Cands '/' cleaned).bind
          (fun r => checked (r.2.2, r.2.1, r.1)),
        (fmt3 monthCands dayCands year4Cands '/' cleaned).bind
          (fun r => checked (r.2.2, r.1, r.2.1)),
        (fmt3 dayCands monthCands year2Cands '-' cleaned).bind
          (fun r => checked (r.2.2, r.2.1, r.1)),
        (fmt3 dayCands monthCands year2Cands '/' cleaned).bind
          (fun r => checked (r.2.2, r.2.1, r.1)),
        (fmt3 monthCands dayCands year2Cands '/' cleaned).bind
          (fun r => checked (r.2.2, r.1, r.2.1)),
        (fmtSpace3 (monthNameCands monthAbbrs) dayCands year4Cands cleaned).bind
          (fun r => checked (r.2.2, r.1, r.2.1)),
        (fmtSpace3 (monthNameCands monthFulls) dayCands year4Cands cleaned).bind
          (fun r => checked (r.2.2, r.1, r.2.1)),
        (fmtSpace3 dayCands (monthNameCands monthAbbrs) year4Cands cleaned).bind
          (fun r => checked (r.2.2, r.2.1, r.1)),
        (fmtSpace3 dayCands (monthNameCands monthFulls) year4Cands cleaned).bind
          (fun r => checked (r.2.2, r.2.1, r.1)),
        (fmtSpace2 (monthNameCands monthAbbrs) dayCands cleaned).bind
          (fun r => checked (now.year, r.1, r.2)),
        (fmtSpace2 (monthNameCands monthFulls) dayCands cleaned).bind
          (fun r => checked (now.year, r.1, r.2)),
        (fmtSpace2 dayCands (monthNameCands monthAbbrs) cleaned).bind
          (fun r => checked (now.year, r.2, r.1)),
        (fmtSpace2 dayCands (monthNameCands monthFulls) cleaned).bind
          (fun r => checked (now.year, r.2, r.1)) ]
    firstSome id tries

/-- Chronological comparison of parsed dates (`parsed_dates.sort()`). -/
def dateLe (a b : PyDate) : Bool := decide (dtToInstant a ≤ dtToInstant b)

/-- The dictionary returned by `extract_time_range` (`start_iso`/`end_iso`
kept as datetimes). -/
structure TimeRange where
  explicit : Bool
  label : String
  tstart : PyDate
  tend : PyDate
  window_days : ℤ
  deriving DecidableEq

/-- The parsed dates of the text's first three date tokens. -/
def parsedDatesOf (text : List Char) (now : PyDate) : List PyDate :=
  ((findDateTokens text).take 3).filterMap (fun tk => tryParseDateToken tk now)

/-- `AssistantTools.extract_time_range`. -/
def extract_time_range (message : String) (now : PyDate) : TimeRange :=
  let text := pyStrip (pyLower message.data)
  let phase1 : Option PyDate × Option PyDate × String × Bool :=
    if containsTok "today".data text then
      (some (dateFloor now), some (addDays 1 (dateFloor now)), "today", true)
    else if containsTok "yesterday".data text then
      (some (subDays 1 (dateFloor now)), some (dateFloor now), "yesterday", true)
    else if containsTok "this week".data text then
      (some (subDays (weekdayOf now).toNat (dateFloor now)), some now, "this_week", true)
    else if containsTok "last week".data text ∨ containsTok "previous week".data text then
      (some (subDays 7 now), some now, "last_week", true)
    else if containsTok "last two week".data text ∨ containsTok "last 2 week".data text ∨
        containsTok "past 2 week".data text then
      (some (subDays 14 now), some now, "last_2_weeks", true)
    else if containsTok "this month".data text then
      (some ⟨now.year, now.month, 1, 0⟩, some now, "this_month", true)
    else if containsTok "last month".data text ∨ containsTok "previous month".data text then
      let currentMonthStart : PyDate := ⟨now.year, now.month, 1, 0⟩
      let anchor := predDay currentMonthStart
      (some ⟨anchor.year, anchor.month, 1, 0⟩, some currentMonthStart, "last_month", true)
    else
      match searchLastN text with
      | some (value, unit) =>
        let days := if containsTok "week".data unit.data then value * 7
                    else if containsTok "month".data unit.data then value * 30
                    else value
        (some (subDays days now), some now, "last_" ++ toString value ++ "_" ++ unit, true)
      | none => (none, none, "last_45_days", false)
  let parsed := parsedDatesOf text now
  let phase2 : Option PyDate × Option PyDate × String × Bool :=
    if 2 ≤ parsed.length then
      let sorted := parsed.mergeSort dateLe
      (some (dateFloor (sorted.getD 0 now)),
       some (addDays 1 (dateFloor (sorted.getD 1 now))), "custom_date_range", true)
    else if parsed.length = 1 then
      (some (dateFloor (parsed.getD 0 now)),
       some (addDays 1 (dateFloor (parsed.getD 0 now))), "single_date", true)
    else phase1
  let startEnd : PyDate × PyDate :=
    match phase2.1, phase2.2.1 with
    | some s, some e => (s, e)
    | _, _ => (subDays 45 now, now)
  { explicit := phase2.2.2.2
    label := phase2.2.2.1
    tstart := startEnd.1
    tend := startEnd.2
    window_days :=
      max 1 (Int.fdiv (dtToInstant startEnd.2 - dtToInstant startEnd.1) 86400) }

/-- First day of the previous calendar month, stated from the spec's words
("start at 00:00 of the first day of the previous month"). -/
def specPrevMonthStart (now : PyDate) : PyDate :=
  if 1 < now.month then ⟨now.year, now.month - 1, 1, 0⟩ else ⟨now.year - 1, 12, 1, 0⟩

/-! ## Orchestrator (`orchestrator.py`)

The pipeline state dict becomes a record of optional fields (a field is
`some v` exactly when the Python dict has the key); `agent_trace` is kept
total, matching the `setdefault("agent_trace", [])` at the start of every
run.  The language-model calls are oracle parameters of type
`Except Unit String` (`Except.error ()` models an exception anywhere in
the call/parse path, `Except.ok c` the extracted candidate text), and the
database reads of `UserStateAgent`/`TransactionQueryAgent` are drawn from
a `DbEnv` record holding what the collaborator interfaces return. -/

/-- A goal entry of `user_profile_summary`. -/
structure Goal where
  goal : String
  category : String
  target_amount : ℚ
  current_amount : ℚ
  progress : ℚ
  status : String
  deriving DecidableEq

/-- The result of `user_profile_summary` (collaborator boundary). -/
structure UserProfile where
  name : String
  goals : List Goal
  recent_transaction_count : ℕ
  recent_spend_30_entries : ℚ
  deriving DecidableEq

/-- One dialogue turn of `recent_dialogue`. -/
structure DialogueTurn where
  role : String
  content : String
  deriving DecidableEq

/-- The per-style counters of `user_style_preferences`. -/
structure StyleScores where
  concise : ℤ
  detailed : ℤ
  example_driven : ℤ
  balanced : ℤ
  deriving DecidableEq

/-- The result of `user_style_preferences`. -/
structure StylePrefs where
  style_preference : String
  tone_preference : String
  style_scores : StyleScores
  deriving DecidableEq

/-- One citation attached by `UserStateAgent` (score is the semantic
score after 4-decimal rounding). -/
structure Citation where
  source : String
  snippet : String
  score : ℝ

/-- The result of `finance_query_focus`. -/
structure QueryFocus where
  focus : List String
  explicit_cashflow_request : Bool
  time_range : TimeRange
  has_amount_constraint : Bool
  amount_values : List ℚ
  deriving DecidableEq

/-- `user_state.cash_flow`. -/
structure CashFlow where
  income : ℚ
  expense : ℚ
  net : ℚ
  deriving DecidableEq

/-- `user_state.habits`. -/
structure Habits where
  velocity_change_pct : ℚ
  discipline_score : ℚ
  deriving DecidableEq

/-- `user_state.sentiment_history`. -/
structure SentimentHistory where
  dominant : String
  stressed : ℕ
  neutral : ℕ
  confident : ℕ
  deriving DecidableEq

/-- The consolidated `user_state` dictionary. -/
structure UserStateData where
  cash_flow : CashFlow
  savings_rate_pct : ℚ
  goals : List Goal
  risk_profile : String
  habits : Habits
  sentiment_history : SentimentHistory
  anomalies : List Anomaly
  lifecycle_stage : String
  monthly_trend : List MonthSpend
  deriving DecidableEq

/-- `ingestion_report`. -/
structure IngestionReport where
  triggered : Bool
  mode : String
  status : String
  deriving DecidableEq

/-- `categorization_report`. -/
structure CategorizationReport where
  top_categories : List CategoryAmount
  possible_recurring : List CategoryAmount
  merchant_detection : String
  deriving DecidableEq

/-- `expense_report`. -/
structure ExpenseReport where
  period_change_pct : ℚ
  trend_direction : String
  anomalies : List Anomaly
  spend_velocity_7d : Velocity
  deriving DecidableEq

/-- `budget_report`. -/
structure BudgetReport where
  model : String
  income_estimate : ℚ
  essential_spend_limit : ℚ
  savings_target : ℚ
  current_spend : ℚ
  overspending_detected : Bool
  adaptive_adjustment_hint : String
  deriving DecidableEq

/-- `forecast_report`. -/
structure ForecastReport where
  days_left_in_month : ℤ
  projected_inflow : ℚ
  projected_outflow : ℚ
  projected_net : ℚ
  confidence : String
  deriving DecidableEq

/-- `behaviour_report`. -/
structure BehaviourReport where
  impulse_spending_score : ℚ
  discipline_score : ℚ
  pattern_summary : String
  deriving DecidableEq

/-- `sentiment_report`. -/
structure SentimentReport where
  emotional_spending_flag : Bool
  stress_spending_flag : Bool
  confidence_score : ℚ
  mood_label : String
  deriving DecidableEq

/-- `investment_report`. -/
structure InvestmentReport where
  investable_surplus : ℚ
  risk_score : String
  readiness : String
  readiness_reason : String
  illustrative_allocation : String
  engagement_hook : String
  advice_disclaimer : String
  deriving DecidableEq

/-- `learning_report`. -/
structure LearningReport where
  tips : List String
  learning_path : List String
  deriving DecidableEq

/-- `financial_health_report`. -/
structure HealthReport where
  savings_score : ℚ
  stability_score : ℚ
  risk_score : ℚ
  overall_health_score : ℚ
  health_band : String
  deriving DecidableEq

/-- The pipeline state dictionary.  `transaction_report` distinguishes the
empty dict the stage writes when no query is needed (`some none`) from a
computed summary (`some (some r)`). -/
structure OState where
  user_id : Option String := none
  session_id : Option String := none
  language : Option String := none
  message : Option String := none
  intent : Option String := none
  user_tone : Option String := none
  query_focus : Option QueryFocus := none
  dissatisfied : Option Bool := none
  show_net_cashflow : Option Bool := none
  financial_snapshot : Option Snapshot := none
  analytics_report : Option Analytics := none
  user_profile : Option UserProfile := none
  recent_dialogue : Option (List DialogueTurn) := none
  user_style_preferences : Option StylePrefs := none
  response_style : Option String := none
  citations : Option (List Citation) := none
  user_state : Option UserStateData := none
  plan : Option (List String) := none
  needs_clarification : Option Bool := none
  missing_fields : Option (List String) := none
  needs_human_review : Option Bool := none
  human_review_reason : Option String := none
  clarification_questions : Option (List String) := none
  ingestion_report : Option IngestionReport := none
  categorization_report : Option CategorizationReport := none
  transaction_report : Option (Option TxSummary) := none
  expense_report : Option ExpenseReport := none
  budget_report : Option BudgetReport := none
  forecast_report : Option ForecastReport := none
  behaviour_report : Option BehaviourReport := none
  sentiment_report : Option SentimentReport := none
  investment_report : Option InvestmentReport := none
  learning_report : Option LearningReport := none
  financial_health_report : Option HealthReport := none
  synthesized_response : Option String := none
  review_note : Option String := none
  response : Option String := none
  agent_trace : List String := []

/-- The state-dict keys the stages read or write (besides the always
present `agent_trace`). -/
inductive StateKey where
  | user_id | session_id | language | message | intent | user_tone
  | query_focus | dissatisfied | show_net_cashflow | financial_snapshot
  | analytics_report | user_profile | recent_dialogue
  | user_style_preferences | response_style | citations | user_state
  | plan | needs_clarification | missing_fields | needs_human_review
  | human_review_reason | clarification_questions | ingestion_report
  | categorization_report | transaction_report | expense_report
  | budget_report | forecast_report | behaviour_report | sentiment_report
  | investment_report | learning_report | financial_health_report
  | synthesized_response | review_note | response
  deriving DecidableEq

/-- Is the key present in the state dict? -/
def hasKey (s : OState) : StateKey → Bool
  | .user_id => s.user_id.isSome
  | .session_id => s.session_id.isSome
  | .language => s.language.isSome
  | .message => s.message.isSome
  | .intent => s.intent.isSome
  | .user_tone => s.user_tone.isSome
  | .query_focus => s.query_focus.isSome
  | .dissatisfied => s.dissatisfied.isSome
  | .show_net_cashflow => s.show_net_cashflow.isSome
  | .financial_snapshot => s.financial_snapshot.isSome
  | .analytics_report => s.analytics_report.isSome
  | .user_profile => s.user_profile.isSome
  | .recent_dialogue => s.recent_dialogue.isSome
  | .user_style_preferences => s.user_style_preferences.isSome
  | .response_style => s.response_style.isSome
  | .citations => s.citations.isSome
  | .user_state => s.user_state.isSome
  | .plan => s.plan.isSome
  | .needs_clarification => s.needs_clarification.isSome
  | .missing_fields => s.missing_fields.isSome
  | .needs_human_review => s.needs_human_review.isSome
  | .human_review_reason => s.human_review_reason.isSome
  | .clarification_questions => s.clarification_questions.isSome
  | .ingestion_report => s.ingestion_report.isSome
  | .categorization_report => s.categorization_report.isSome
  | .transaction_report => s.transaction_report.isSome
  | .expense_report => s.expense_report.isSome
  | .budget_report => s.budget_report.isSome
  | .forecast_report => s.forecast_report.isSome
  | .behaviour_report => s.behaviour_report.isSome
  | .sentiment_report => s.sentiment_report.isSome
  | .investment_report => s.investment_report.isSome
  | .learning_report => s.learning_report.isSome
  | .financial_health_report => s.financial_health_report.isSome
  | .synthesized_response => s.synthesized_response.isSome
  | .review_note => s.review_note.isSome
  | .response => s.response.isSome

/-- What the collaborator interfaces return for this user and session
(`ReadTransactions`, `ReadUserProfile`, `ReadRecentDialogue`,
`ReadStylePreferences`), plus the rendered semantic corpus and the
process hash for semantic search. -/
structure DbEnv where
  transactions : List Tx
  profile : UserProfile
  dialogue : List DialogueTurn
  prefs : StylePrefs
  corpus : List SemanticDoc
  hash : String → ℕ

/-! ### Signal-extraction tools used by the stages (`tools.py`) -/

/-- `AssistantTools.detect_dissatisfaction`. -/
def detect_dissatisfaction (text : String) : Bool :=
  let lowered := pyStrip (pyLower text.data)
  if lowered.isEmpty then false
  else
    ["boring", "bore", "same thing", "repeat", "repetitive", "not helpful",
     "didn\x27t help", "did not help", "you always", "stop repeating",
     "bad answer", "wrong answer", "not satisfied", "useless", "annoying",
     "frustrated"].any (fun p => containsTok p.data lowered)

/-- `AssistantTools.infer_user_tone`. -/
def infer_user_tone (text : String) : String :=
  let lowered := pyStrip (pyLower text.data)
  if lowered.isEmpty then "neutral"
  else if ["urgent", "asap", "quick", "immediately", "now"].any
      (fun p => containsTok p.data lowered) then "urgent"
  else if ["worried", "stress", "anxious", "overwhelmed"].any
      (fun p => containsTok p.data lowered) then "stressed"
  else if ["hey", "buddy", "bro", "chill", "casual"].any
      (fun p => containsTok p.data lowered) then "casual"
  else if containsTok "?".data lowered ∨
      ["explain", "why", "how", "what"].any (fun p => containsTok p.data lowered) then
    "curious"
  else "neutral"

/-- `AssistantTools.preferred_response_style`. -/
def preferred_response_style (message : String) (dialogue : List DialogueTurn) : String :=
  let prior := String.intercalate " "
    ((dialogue.filter (fun d => d.role == "user")).map (·.content))
  let text := pyLower (prior ++ " " ++ message).data
  if ["short", "brief", "quick answer", "just answer", "tldr"].any
      (fun p => containsTok p.data text) then "concise"
  else if ["detailed", "in detail", "deep", "step by step"].any
      (fun p => containsTok p.data text) then "detailed"
  else if ["example", "sample", "show me"].any
      (fun p => containsTok p.data text) then "example_driven"
  else "balanced"

/-- Number part of the money regex: `[0-9]+(\.[0-9]+)?`. -/
def parseMoneyNum (s : List Char) : Option (ℚ × List Char) :=
  let ds := s.takeWhile Char.isDigit
  if ds.isEmpty then none
  else
    let r := s.dropWhile Char.isDigit
    match r with
    | '.' :: r2 =>
      let fs := r2.takeWhile Char.isDigit
      if fs.isEmpty then some ((digitsToNat ds : ℚ), r)
      else some ((digitsToNat ds : ℚ) + (digitsToNat fs : ℚ) / ((10 : ℚ) ^ fs.length),
        r2.dropWhile Char.isDigit)
    | _ => some ((digitsToNat ds : ℚ), r)

/-- Currency-marker alternation `rs\.?|inr|$|₹` (on lowered text),
returning the rest after the marker. -/
def moneyMarker (s : List Char) : Option (List Char) :=
  if hasPref "rs".data s then
    let r := s.drop 2
    match r with
    | '.' :: r2 => some r2
    | _ => some r
  else if hasPref "inr".data s then some (s.drop 3)
  else if hasPref "$".data s then some (s.drop 1)
  else if hasPref "₹".data s then some (s.drop 1)
  else none

/-- Fueled scanner for the money `findall`. -/
def findMoneyAux : ℕ → List Char → List ℚ
  | 0, _ => []
  | _ + 1, [] => []
  | fuel + 1, c :: cs =>
    match moneyMarker (c :: cs) with
    | some rest =>
      match parseMoneyNum (rest.dropWhile pySpace) with
      | some (v, rest2) => v :: findMoneyAux fuel rest2
      | none => findMoneyAux fuel cs
    | none => findMoneyAux fuel cs

/-- All money amounts mentioned in the text. -/
def findMoney (s : List Char) : List ℚ := findMoneyAux (s.length + 1) s

/-- The keyword rules of `finance_query_focus`, in source order. -/
def focusRules : List (String × List String) :=
  [("cashflow", ["cash flow", "cashflow", "income vs expense"]),
   ("spending_trend", ["trend", "month over month", "pattern"]),
   ("category_breakdown", ["category", "breakdown", "where i spend", "spent most"]),
   ("anomalies", ["anomaly", "unusual", "outlier", "suspicious", "unexpected"]),
   ("velocity_7d", ["last 7 days", "weekly", "this week", "velocity"]),
   ("savings_actions", ["save", "reduce", "cut", "optimize", "improve"]),
   ("goal_progress", ["goal", "target", "progress"]),
   ("education", ["what is", "meaning", "explain"]),
   ("transaction_summary", ["transaction", "transactions", "summary", "history",
     "debit", "credit"])]

/-- `AssistantTools.finance_query_focus`. -/
def finance_query_focus (message : String) (now : PyDate) : QueryFocus :=
  let text := pyStrip (pyLower message.data)
  let explicit_cashflow := ["net cashflow", "cashflow", "cash flow", "income vs expense"].any
    (fun k => containsTok k.data text)
  let focus0 := (focusRules.filter
    (fun r => r.2.any (fun k => containsTok k.data text))).map (·.1)
  let focus1 := if focus0.isEmpty then ["savings_actions"] else focus0
  let tr := extract_time_range message now
  let focus2 :=
    if tr.explicit ∧ ¬ focus1.contains "transaction_summary" then
      focus1 ++ ["transaction_summary"]
    else focus1
  let money := findMoney text
  { focus := focus2.take 5
    explicit_cashflow_request := explicit_cashflow
    time_range := tr
    has_amount_constraint := !money.isEmpty
    amount_values := money.take 4 }

/-! ### Text post-processing of the synthesizer (`re.sub` pipeline) and
Python number formatting used by the fallback summary -/

/-- Round half to even on the reals (for the citation score rounding). -/
noncomputable def roundHalfEvenR (x : ℝ) : ℤ :=
  let f := ⌊x⌋
  let r := x - (f : ℝ)
  if r < 1/2 then f
  else if 1/2 < r then f + 1
  else if Even f then f else f + 1

/-- Python `round(x, 4)` on a float score. -/
noncomputable def pyRound4R (x : ℝ) : ℝ := (roundHalfEvenR (x * 10000) : ℝ) / 10000

/-- Split into lines at `'\n'` (a trailing newline yields a final empty
line, as Python's `^.*$` multiline matching sees it). -/
def splitLines : List Char → List (List Char)
  | [] => [[]]
  | c :: cs =>
    if c = '\n' then [] :: splitLines cs
    else
      match splitLines cs with
      | [] => [[c]]
      | l :: ls => (c :: l) :: ls

/-- Join lines with `'\n'`. -/
def joinLines : List (List Char) → List Char
  | [] => []
  | [l] => l
  | l :: ls => l ++ '\n' :: joinLines ls

/-- Does the lowered line contain `pat` at word boundaries
(`(?i)\b…\b`)? -/
def containsWordSeqAux (pat : List Char) : Bool → List Char → Bool
  | _, [] => false
  | prevW, c :: cs =>
    (!prevW && hasPref pat (c :: cs) && boundaryOk ((c :: cs).drop pat.length)) ||
      containsWordSeqAux pat (isWordChar c) cs

/-- Word-bounded containment on the lowered text. -/
def containsWordSeq (pat : List Char) (s : List Char) : Bool :=
  containsWordSeqAux pat false (pyLower s)

/-- Does the line match `^.*\bnet cashflow\b.*$` or
`^.*\bprojected_net\b.*$` (case-insensitively)? -/
def lineMatchesNet (line : List Char) : Bool :=
  containsWordSeq "net cashflow".data line || containsWordSeq "projected_net".data line

/-- `re.sub(r"\n{3,}", "\n\n", s)`: cap newline runs at two. -/
def collapse3Aux : ℕ → List Char → List Char
  | nl, [] => List.replicate (min nl 2) '\n'
  | nl, c :: cs =>
    if c = '\n' then collapse3Aux (nl + 1) cs
    else List.replicate (min nl 2) '\n' ++ c :: collapse3Aux 0 cs

/-- Cap newline runs at two. -/
def collapse3 (s : List Char) : List Char := collapse3Aux 0 s

/-- The net-cashflow scrub applied when `show_net_cashflow` is false:
blank every matching line, collapse newline runs, and strip. -/
def scrubNetChars (s : List Char) : List Char :=
  pyStrip (collapse3 (joinLines
    ((splitLines s).map (fun l => if lineMatchesNet l then [] else l))))

/-- `re.sub(r"\bINR\b", "₹", s, flags=IGNORECASE)` (fueled scanner). -/
def replaceINRAux : ℕ → Bool → List Char → List Char
  | 0, _, s => s
  | _ + 1, _, [] => []
  | fuel + 1, prevW, c :: cs =>
    if !prevW && hasPref "inr".data (pyLower (c :: cs)) &&
        boundaryOk ((c :: cs).drop 3) then
      "₹".data ++ replaceINRAux fuel true ((c :: cs).drop 3)
    else c :: replaceINRAux fuel (isWordChar c) cs

/-- Word-bounded INR replacement. -/
def replaceINR (s : List Char) : List Char := replaceINRAux (s.length + 1) false s

/-- `re.sub(r"\bRs\.?\s*", "₹", s, flags=IGNORECASE)` (fueled scanner). -/
def replaceRsAux : ℕ → Bool → List Char → List Char
  | 0, _, s => s
  | _ + 1, _, [] => []
  | fuel + 1, prevW, c :: cs =>
    if !prevW && hasPref "rs".data (pyLower (c :: cs)) then
      let r1 := (c :: cs).drop 2
      let tookDot := match r1 with | '.' :: _ => true | _ => false
      let r2 := match r1 with | '.' :: t => t | _ => r1
      let spaces := r2.takeWhile pySpace
      "₹".data ++ replaceRsAux fuel (!tookDot && spaces.isEmpty) (r2.dropWhile pySpace)
    else c :: replaceRsAux fuel (isWordChar c) cs

/-- Word-started Rs replacement. -/
def replaceRs (s : List Char) : List Char := replaceRsAux (s.length + 1) false s

/-- The full post-processing of the synthesizer text: optional
net-cashflow scrub, then the two currency substitutions. -/
def synthPostProcess (show_net : Bool) (text : String) : String :=
  let t1 := if show_net then text.data else scrubNetChars text.data
  ⟨replaceRs (replaceINR t1)⟩

/-- Join chunks with commas (helper for `fmtComma0`). -/
def joinWithComma : List (List Char) → List Char
  | [] => []
  | [l] => l
  | l :: ls => l ++ ',' :: joinWithComma ls

/-- Python `f"{x:,.0f}"`: round half-even to an integer and group digits
in threes. -/
def fmtComma0 (q : ℚ) : String :=
  let n := roundHalfEven q
  let ds := (toString n.natAbs).data
  let grouped := joinWithComma (((ds.reverse.toChunks 3).map List.reverse).reverse)
  ⟨(if n < 0 then ['-'] else []) ++ grouped⟩

/-- Python `str`/f-string rendering of a float that carries at most two
decimals (every value interpolated by the fallback comes from the
source's `round(x, 1)` or `round(x, 2)`). -/
def fmtPyFloat (q : ℚ) : String :=
  let c := roundHalfEven (q * 100)
  let a := c.natAbs
  let i := a / 100
  let d := a % 100
  let frac : String :=
    if d = 0 then ".0"
    else if d % 10 = 0 then "." ++ toString (d / 10)
    else "." ++ (if d < 10 then "0" else "") ++ toString d
  ⟨(if c < 0 then ['-'] else []) ++ (toString i).data ++ frac.data⟩

/-- Python `str(True)`/`str(False)`. -/
def fmtBool (b : Bool) : String := if b then "True" else "False"

/-- `"\n".join(lines)`. -/
def joinNL : List String → String
  | [] => ""
  | [a] => a
  | a :: b :: t => a ++ "\n" ++ joinNL (b :: t)

/-! ### The agents -/

/-- The closed intent set. -/
def allowedIntents : List String :=
  ["expense_question", "budget_question", "investment_question",
   "education_request", "behaviour_analysis", "emotional_spending",
   "forecasting", "general"]

/-- `IntentDetectionAgent`'s intent computation: on a successful
language-model call the extracted candidate is accepted when it is in the
allowed set (otherwise `general`); on an exception the ordered keyword
fallback runs. -/
def classifyIntent (llm : Except Unit String) (lowered : List Char) : String :=
  match llm with
  | .ok candidate =>
    let c : String := ⟨pyLower (pyStrip candidate.data)⟩
    if allowedIntents.contains c then c else "general"
  | .error _ =>
    if ["spend", "expense", "where did i spend", "transaction"].any
        (fun k => containsTok k.data lowered) then "expense_question"
    else if ["budget", "limit", "overspend", "80/20"].any
        (fun k => containsTok k.data lowered) then "budget_question"
    else if ["invest", "allocation", "portfolio", "risk profile"].any
        (fun k => containsTok k.data lowered) then "investment_question"
    else if ["learn", "teach", "what is", "explain"].any
        (fun k => containsTok k.data lowered) then "education_request"
    else if ["habit", "discipline", "behavior", "behaviour"].any
        (fun k => containsTok k.data lowered) then "behaviour_analysis"
    else if ["stress", "emotional", "impulse", "panic"].any
        (fun k => containsTok k.data lowered) then "emotional_spending"
    else if ["forecast", "next month", "end of month", "projection"].any
        (fun k => containsTok k.data lowered) then "forecasting"
    else "general"

/-- `IntentDetectionAgent.run`. -/
def intentDetectionRun (llmI : Except Unit String) (nowDT : PyDate) (s : OState) : OState :=
  let message : String := ⟨pyStrip (s.message.getD "").data⟩
  let lowered := pyLower message.data
  let tone := infer_user_tone message
  let focus := finance_query_focus message nowDT
  let intent := classifyIntent llmI lowered
  { s with
    intent := some intent
    user_tone := some tone
    query_focus := some focus
    dissatisfied := some (detect_dissatisfaction message)
    show_net_cashflow :=
      some (focus.explicit_cashflow_request || (focus.time_range.label == "this_month"))
    agent_trace := s.agent_trace ++ ["intent_detection:" ++ intent] }

/-- `UserStateAgent._derive_sentiment_history`. -/
def deriveSentimentHistory (dialogue : List DialogueTurn) : SentimentHistory :=
  let step := fun (m : ℕ × ℕ × ℕ) (item : DialogueTurn) =>
    if item.role ≠ "user" then m
    else
      let text := pyLower item.content.data
      if ["stress", "worried", "anxious", "panic", "overwhelmed"].any
          (fun k => containsTok k.data text) then (m.1 + 1, m.2.1, m.2.2)
      else if ["good", "better", "confident", "on track"].any
          (fun k => containsTok k.data text) then (m.1, m.2.1, m.2.2 + 1)
      else (m.1, m.2.1 + 1, m.2.2)
  let m := dialogue.foldl step (0, 0, 0)
  let dominant :=
    if dialogue.isEmpty then "neutral"
    else if m.2.1 ≥ m.1 ∧ m.2.1 ≥ m.2.2 ∧ m.1 < m.2.1 then "neutral"
    else if m.1 ≥ m.2.1 ∧ m.1 ≥ m.2.2 then "stressed"
    else if m.2.1 ≥ m.2.2 then "neutral"
    else "confident"
  { dominant := dominant, stressed := m.1, neutral := m.2.1, confident := m.2.2 }

/-- `UserStateAgent._derive_risk_profile`. -/
def deriveRiskProfile (profile : UserProfile) (analytics : Analytics)
    (sent : SentimentHistory) : String :=
  if 3 ≤ analytics.anomalies.length ∨ 2 ≤ sent.stressed then "conservative"
  else if profile.goals ≠ [] ∧ analytics.anomalies.length ≤ 1 then "balanced"
  else "moderate"

/-- `UserStateAgent._habit_signals`. -/
def habitSignals (analytics : Analytics) : Habits :=
  let velocity := analytics.spend_velocity_7d.change_pct
  { velocity_change_pct := pyRound1 velocity
    discipline_score := pyRound1 (max 0 (min 100 (65 - velocity / 3))) }

/-- `UserStateAgent.run`. -/
noncomputable def userStateRun (env : DbEnv) (nowDT : PyDate) (s : OState) : OState :=
  let message := s.message.getD ""
  let snapshot := financial_snapshot env.transactions 45 (dtToInstant nowDT)
  let analytics := analytics_report env.transactions 90 (dtToInstant nowDT)
  let semHits := semSearch env.hash 512 message env.corpus 6
  let style0 := preferred_response_style message env.dialogue
  let style :=
    if style0 = "balanced" ∧
        env.prefs.style_preference ∈
          ["concise", "detailed", "example_driven", "balanced"] then
      env.prefs.style_preference
    else style0
  let debit := snapshot.total_debit
  let credit := snapshot.total_credit
  let savings_rate := if 0 < credit then (credit - debit) / credit * 100 else 0
  let lifecycle :=
    if 0 < credit ∧ 35 < savings_rate then "stability"
    else if 0 < credit ∧ 20 < savings_rate then "growth"
    else "starter"
  let sentHist := deriveSentimentHistory env.dialogue
  let citations := (semHits.take 4).map (fun item =>
    ({ source := item.source
       snippet := strTake ⟨pyStrip (item.text.data.map
         (fun c => if c = '\n' then ' ' else c))⟩ 180
       score := pyRound4R item.score } : Citation))
  { s with
    financial_snapshot := some snapshot
    analytics_report := some analytics
    user_profile := some env.profile
    recent_dialogue := some env.dialogue
    user_style_preferences := some env.prefs
    response_style := some style
    citations := some citations
    user_state := some
      { cash_flow :=
          { income := pyRound2 credit, expense := pyRound2 debit,
            net := pyRound2 (credit - debit) }
        savings_rate_pct := pyRound1 savings_rate
        goals := env.profile.goals
        risk_profile := deriveRiskProfile env.profile analytics sentHist
        habits := habitSignals analytics
        sentiment_history := sentHist
        anomalies := analytics.anomalies.take 5
        lifecycle_stage := lifecycle
        monthly_trend := analytics.monthly_trend }
    agent_trace := s.agent_trace ++ ["user_state"] }

/-- The full base stage sequence of the planner. -/
def basePlan : List String :=
  ["ingestion", "categorization", "transaction_query", "expense", "budget",
   "forecasting", "behaviour", "sentiment", "investment", "learning",
   "financial_health", "synthesizer"]

/-- `PlannerAgent.run`. -/
def plannerRun (s : OState) : OState :=
  let intent := s.intent.getD "general"
  let goals := (s.user_state.map (·.goals)).getD []
  let income := (s.user_state.map (fun u => u.cash_flow.income)).getD 0
  let message := pyLower (s.message.getD "").data
  let missing : List String :=
    (if intent ∈ ["budget_question", "investment_question", "forecasting"] ∧ goals = []
      then ["goal"] else []) ++
    (if intent ∈ ["budget_question", "forecasting"] ∧ income ≤ 0
      then ["income"] else []) ++
    (if intent = "investment_question" ∧ ¬ (containsTok "horizon".data message = true)
      then ["investment_horizon"] else [])
  let plan :=
    if intent = "education_request" then ["learning", "financial_health", "synthesizer"]
    else if intent = "emotional_spending" then
      ["transaction_query", "expense", "behaviour", "sentiment", "budget",
       "learning", "financial_health", "synthesizer"]
    else basePlan
  let anomalies := (s.user_state.map (·.anomalies)).getD []
  let review : Bool × String :=
    if intent = "investment_question" then (true, "investment_readiness_confirmation")
    else if 3 ≤ anomalies.length then (true, "large_anomalies")
    else (false, "")
  { s with
    plan := some plan
    needs_clarification := some (decide (missing ≠ []))
    missing_fields := some missing
    needs_human_review := some review.1
    human_review_reason := some review.2
    agent_trace := s.agent_trace ++ ["planner:" ++ String.intercalate "," plan] }

/-- `ClarificationAgent.run`. -/
def clarificationRun (s : OState) : OState :=
  let missing := s.missing_fields.getD []
  let questions := missing.filterMap (fun item =>
    if item = "goal" then some "What financial goal should I optimize for right now?"
    else if item = "income" then
      some "Could you share your approximate monthly income so I can make a realistic plan?"
    else if item = "investment_horizon" then
      some "What is your investment horizon (for example 1, 3, or 5+ years)?"
    else none)
  { s with
    clarification_questions := some questions
    agent_trace := s.agent_trace ++ ["clarification"] }

/-- `IngestionAgent.run`. -/
def ingestionRun (s : OState) : OState :=
  let message := pyLower (s.message.getD "").data
  let report : IngestionReport :=
    if ["csv", "statement", "upload", "ocr", "sync bank"].any
        (fun k => containsTok k.data message) then
      { triggered := true, mode := "user_requested", status := "pending_input" }
    else { triggered := false, mode := "none", status := "not_requested" }
  { s with
    ingestion_report := some report
    agent_trace := s.agent_trace ++ ["ingestion"] }

/-- `CategorizationAgent.run`. -/
def categorizationRun (s : OState) : OState :=
  let top := (s.financial_snapshot.map (·.top_categories)).getD []
  let recurring := top.filter (fun c =>
    (⟨pyLower c.name.data⟩ : String) ∈ ["subscriptions", "bills", "utilities"])
  { s with
    categorization_report := some
      { top_categories := top.take 5
        possible_recurring := recurring.take 3
        merchant_detection := "heuristic" }
    agent_trace := s.agent_trace ++ ["categorization"] }

/-- `TransactionQueryAgent.run`. -/
def transactionQueryRun (env : DbEnv) (nowDT : PyDate) (s : OState) : OState :=
  let focusList := (s.query_focus.map (·.focus)).getD []
  let tr := s.query_focus.map (·.time_range)
  let intent := s.intent.getD "general"
  let message := pyLower (s.message.getD "").data
  let needs0 := focusList.contains "transaction_summary" ∨ (tr.map (·.explicit)).getD false
  let needs := needs0 ∨ (intent = "expense_question" ∧
    ["transaction", "history", "debit", "credit", "spent"].any
      (fun k => containsTok k.data message))
  let report : Option TxSummary :=
    if needs then
      some (transaction_summary env.transactions
        ((tr.map (fun t => dtToInstant t.tstart)).getD (dtToInstant nowDT))
        ((tr.map (fun t => dtToInstant t.tend)).getD (dtToInstant nowDT)) 20)
    else none
  { s with
    transaction_report := some report
    agent_trace := s.agent_trace ++
      ["transaction_query:" ++ toString ((report.map (·.transaction_count)).getD 0)] }

/-- `ExpenseAgent.run`. -/
def expenseRun (s : OState) : OState :=
  let pc := (s.analytics_report.map (·.period_change_pct)).getD 0
  { s with
    expense_report := some
      { period_change_pct := pyRound1 pc
        trend_direction := if 0 < pc then "up" else if pc < 0 then "down" else "flat"
        anomalies := ((s.analytics_report.map (·.anomalies)).getD []).take 5
        spend_velocity_7d := (s.analytics_report.map (·.spend_velocity_7d)).getD ⟨0, 0, 0⟩ }
    agent_trace := s.agent_trace ++ ["expense"] }

/-- `BudgetAgent.run`. -/
def budgetRun (s : OState) : OState :=
  let income := (s.user_state.map (fun u => u.cash_flow.income)).getD 0
  let expense := (s.user_state.map (fun u => u.cash_flow.expense)).getD 0
  let essentials := income * (8 / 10 : ℚ)
  let overspending := if 0 < income then decide (essentials < expense) else false
  { s with
    budget_report := some
      { model := "80/20"
        income_estimate := pyRound2 income
        essential_spend_limit := pyRound2 essentials
        savings_target := pyRound2 (income * (2 / 10 : ℚ))
        current_spend := pyRound2 expense
        overspending_detected := overspending
        adaptive_adjustment_hint :=
          if overspending then "tighten variable categories by 10%" else "on_track" }
    agent_trace := s.agent_trace ++ ["budget"] }

/-- `ForecastingAgent.run`. -/
def forecastingRun (nowDT : PyDate) (s : OState) : OState :=
  let days0 := (s.financial_snapshot.map (·.window_days)).getD 45
  let days := if days0 = 0 then 45 else days0
  let debit := (s.financial_snapshot.map (·.total_debit)).getD 0
  let credit := (s.financial_snapshot.map (·.total_credit)).getD 0
  let dailyDebit := debit / (max 1 days : ℕ)
  let dailyCredit := credit / (max 1 days : ℕ)
  let daysLeft : ℤ := max 1 (30 - (nowDT.day : ℤ))
  { s with
    forecast_report := some
      { days_left_in_month := daysLeft
        projected_inflow := pyRound2 (dailyCredit * daysLeft)
        projected_outflow := pyRound2 (dailyDebit * daysLeft)
        projected_net := pyRound2 (dailyCredit * daysLeft - dailyDebit * daysLeft)
        confidence := "medium" }
    agent_trace := s.agent_trace ++ ["forecasting"] }

/-- `BehaviourAgent.run`. -/
def behaviourRun (s : OState) : OState :=
  let anomalies := (s.expense_report.map (·.anomalies)).getD []
  let velocity := (s.expense_report.map (fun e => e.spend_velocity_7d.change_pct)).getD 0
  let impulse := min 100 (max 0 ((anomalies.length : ℚ) * 18 + max 0 velocity))
  { s with
    behaviour_report := some
      { impulse_spending_score := pyRound1 impulse
        discipline_score := pyRound1 (max 0 (100 - impulse))
        pattern_summary := if 55 ≤ impulse then "spike-driven" else "stable" }
    agent_trace := s.agent_trace ++ ["behaviour"] }

/-- `SentimentAgent.run`. -/
def sentimentRun (s : OState) : OState :=
  let message := pyLower (s.message.getD "").data
  let tone := s.user_tone.getD "neutral"
  let emotional := ["stress", "panic", "sad", "frustrated", "overwhelmed", "impulse"].any
    (fun k => containsTok k.data message)
  let stressTone := tone ∈ ["stressed", "urgent"]
  { s with
    sentiment_report := some
      { emotional_spending_flag := emotional
        stress_spending_flag := stressTone ∨ emotional
        confidence_score :=
          pyRound2 (if emotional ∨ stressTone then (3 / 4 : ℚ) else (7 / 20 : ℚ))
        mood_label :=
          if stressTone ∨ emotional then "support_needed"
          else if tone = "curious" then "curious"
          else if tone = "casual" then "casual"
          else "calm" }
    agent_trace := s.agent_trace ++ ["sentiment"] }

/-- `InvestmentAgent.run`. -/
def investmentRun (s : OState) : OState :=
  let intent := s.intent.getD "general"
  let mood := (s.sentiment_report.map (·.mood_label)).getD "calm"
  let net : ℚ := (s.user_state.map (fun u => u.cash_flow.net)).getD 0
  let risk := (s.user_state.map (·.risk_profile)).getD "moderate"
  let readiness :=
    if net ≤ 0 then "not_ready"
    else if net < 5000 then "emergency_fund_first"
    else "ready_to_explore"
  let hook0 :=
    if mood = "support_needed" then
      "Want me to keep this very low-risk and explain it in simple steps?"
    else "Would you like a conservative, balanced, or growth-oriented sample roadmap?"
  { s with
    investment_report := some
      { investable_surplus := pyRound2 (max 0 (net * (1 / 2 : ℚ)))
        risk_score := risk
        readiness := readiness
        readiness_reason :=
          if readiness = "emergency_fund_first" then "surplus_exists_but_buffer_thin"
          else if readiness = "ready_to_explore" then "positive_surplus_and_stability"
          else "negative_or_zero_surplus"
        illustrative_allocation :=
          if risk = "conservative" then "70/20/10 (safer/diversified/learning bucket)"
          else "60/30/10 (core/diversified/learning bucket)"
        engagement_hook :=
          if intent ≠ "investment_question" then
            "If you want, I can also show how this fits your current goal timeline."
          else hook0
        advice_disclaimer := "informational_only_not_financial_advice" }
    agent_trace := s.agent_trace ++ ["investment"] }

/-- `LearningAgent.run`. -/
def learningRun (s : OState) : OState :=
  let intent := s.intent.getD "general"
  let tip :=
    if intent = "expense_question" then "Use weekly category caps to control variance."
    else if intent = "budget_question" then
      "Try 80/20: auto-save 20% before discretionary spend."
    else if intent = "investment_question" then
      "Build emergency cash before increasing risk exposure."
    else if intent = "education_request" then
      "Focus on cashflow, savings rate, and risk first."
    else if intent = "behaviour_analysis" then
      "Use a 24-hour pause rule for impulse purchases."
    else if intent = "emotional_spending" then
      "Create a low-cost stress alternative list before spending."
    else if intent = "forecasting" then "Review forecast weekly and compare with actuals."
    else "Track top 3 categories monthly to improve control."
  { s with
    learning_report := some
      { tips := [tip]
        learning_path := ["Foundations", "Budgeting", "Risk", "Automation"] }
    agent_trace := s.agent_trace ++ ["learning"] }

/-- `FinancialHealthAgent.run`. -/
def financialHealthRun (s : OState) : OState :=
  let savingsRate := (s.user_state.map (·.savings_rate_pct)).getD 0
  let discipline := (s.behaviour_report.map (·.discipline_score)).getD 50
  let overspending := (s.budget_report.map (·.overspending_detected)).getD false
  let emotional := (s.sentiment_report.map (·.emotional_spending_flag)).getD false
  let readiness := (s.investment_report.map (·.readiness)).getD "not_ready"
  let savingsScore := max 0 (min 100 (savingsRate * 2))
  let stabilityScore := max 0 (min 100 (discipline - (if overspending then 20 else 0)))
  let riskScore := (if readiness = "ready_to_explore" then (65 : ℚ) else 40) -
    (if emotional then 15 else 0)
  let overall := (savingsScore + stabilityScore + riskScore) / 3
  { s with
    financial_health_report := some
      { savings_score := pyRound1 savingsScore
        stability_score := pyRound1 stabilityScore
        risk_score := pyRound1 riskScore
        overall_health_score := pyRound1 overall
        health_band :=
          if 70 ≤ overall then "good"
          else if 45 ≤ overall then "watch"
          else "needs_attention" }
    agent_trace := s.agent_trace ++ ["financial_health"] }

/-- Two-digit zero padding (strftime month and day fields). -/
def pad2 (n : ℕ) : String := if n < 10 then "0" ++ toString n else toString n

/-- `strftime("%Y-%m-%d")` on the civil date of a day number. -/
def fmtDayISO (z : ℤ) : String :=
  let c := civilFromDays z
  toString c.1 ++ "-" ++ pad2 c.2.1 ++ "-" ++ pad2 c.2.2

/-- `SynthesizerAgent._format_transaction_table`. -/
def formatTxTable (tx : Option TxSummary) : String :=
  let rows := ((tx.map (·.transactions)).getD []).take 5
  if rows.isEmpty then "_No transactions in this range._"
  else
    joinNL (["| Date | Description | Category | Type | Amount |",
             "|---|---|---|---|---:|"] ++
      rows.map (fun item =>
        let desc : String :=
          ⟨(pyStrip (item.description.data.map
            (fun c => if c = '|' then ' ' else c))).take 30⟩
        let cat : String :=
          ⟨pyStrip (item.category.data.map (fun c => if c = '|' then ' ' else c))⟩
        let typ : String := ⟨pyStrip item.transaction_type.data⟩
        "| " ++ fmtDayISO item.dateDay ++ " | " ++ desc ++ " | " ++ cat ++
          " | " ++ typ ++ " | ₹" ++ fmtComma0 item.amount ++ " |"))

/-- `SynthesizerAgent._fallback_summary`. -/
def fallbackSummary (s : OState) : String :=
  let intent := s.intent.getD "general"
  let mood := (s.sentiment_report.map (·.mood_label)).getD "calm"
  let tx : Option TxSummary := s.transaction_report.getD none
  let intro :=
    if mood = "support_needed" then
      "You are doing better than you think. We can keep this simple and safe."
    else if mood = "curious" then "Great question. Here is the clearest path."
    else "You are on the right track."
  if intent = "investment_question" then
    intro ++ "\n" ++
    "- Readiness: " ++ ((s.investment_report.map (·.readiness)).getD "unknown") ++
      " (" ++ ((s.investment_report.map (·.readiness_reason)).getD "context") ++ ").\n" ++
    "- Suggested approach: " ++
      ((s.investment_report.map (·.illustrative_allocation)).getD
        "balanced staged allocation") ++ ".\n" ++
    "- Next action: decide your horizon and monthly amount, then start with a low-risk base.\n" ++
    "- " ++ ((s.investment_report.map (·.engagement_hook)).getD
      "Want me to build a step-by-step beginner plan?")
  else
    let txCount := (tx.map (·.transaction_count)).getD 0
    if 0 < txCount then
      joinNL ([intro,
        "- Transactions found: " ++ toString txCount ++ " in " ++
          ((tx.map (fun v => fmtDayISO v.start_day)).getD "") ++ " to " ++
          ((tx.map (fun v => fmtDayISO v.end_day)).getD "") ++ ".",
        "- Debit: ₹" ++ fmtComma0 ((tx.map (·.total_debit)).getD 0) ++
          ", Credit: ₹" ++ fmtComma0 ((tx.map (·.total_credit)).getD 0) ++ "."] ++
        (if s.show_net_cashflow.getD false then
          ["- Net cashflow: ₹" ++ fmtComma0 ((tx.map (·.net_cashflow)).getD 0) ++ "."]
        else []) ++
        ["Here are recent transactions:",
         formatTxTable tx,
         "- Want me to break this down by category and suggest one optimization?"])
    else
      intro ++ "\n" ++
      "- Overall health score: " ++
        ((s.financial_health_report.map (fun h => fmtPyFloat h.overall_health_score)).getD "0") ++
        " (" ++ ((s.financial_health_report.map (·.health_band)).getD "watch") ++ ").\n" ++
      "- Budget model: 80/20, overspending=" ++
        fmtBool ((s.budget_report.map (·.overspending_detected)).getD false) ++ ".\n" ++
      "- Forecast: inflow ₹" ++
        ((s.forecast_report.map (fun f => fmtPyFloat f.projected_inflow)).getD "0") ++
        " vs outflow ₹" ++
        ((s.forecast_report.map (fun f => fmtPyFloat f.projected_outflow)).getD "0") ++ ".\n" ++
      "- Next action: review top 2 spending categories and set one cap for this week.\n" ++
      "- Want a focused 7-day action plan?"

/-- `SynthesizerAgent.run`: the language-model text (stripped) on
success, `_fallback_summary` on an exception, then the net-cashflow
scrub and currency substitutions. -/
def synthesizerRun (llmS : Except Unit String) (s : OState) : OState :=
  let text0 : String :=
    match llmS with
    | .ok content => ⟨pyStrip content.data⟩
    | .error _ => fallbackSummary s
  { s with
    synthesized_response := some (synthPostProcess (s.show_net_cashflow.getD false) text0)
    agent_trace := s.agent_trace ++ ["synthesizer"] }

/-- `HumanReviewAgent.run`. -/
def reviewRun (s : OState) : OState :=
  if ¬ (s.needs_human_review.getD false) then s
  else
    let reason := s.human_review_reason.getD "policy_guardrail"
    { s with
      review_note :=
        some (if reason = "investment_readiness_confirmation" then
            "Review needed before applying changes."
          else "Review suggested due to unusually large anomalies.")
      agent_trace := s.agent_trace ++ ["human_review:" ++ reason] }

/-- `MemoryUpdateAgent.run`: the database insert is an external effect;
the state only gains the trace entry, and only for a non-blank user id. -/
def memoryRun (s : OState) : OState :=
  if (pyStrip (s.user_id.getD "").data).isEmpty then s
  else { s with agent_trace := s.agent_trace ++ ["memory_update"] }

/-- `FinalResponseAgent.run`. -/
def finalRun (s : OState) : OState :=
  let response :=
    if s.needs_clarification.getD false then
      "Before I proceed, I need a couple of details:\n" ++
        joinNL ((s.clarification_questions.getD []).map (fun q => "- " ++ q))
    else
      let r : String := ⟨pyStrip (s.synthesized_response.getD "").data⟩
      let note : String := ⟨pyStrip (s.review_note.getD "").data⟩
      if note ≠ "" then
        r ++ "\n\n" ++ note ++
          "\nReply \x27approve\x27 to continue or tell me what to change."
      else r
  { s with
    response := some response
    agent_trace := s.agent_trace ++ ["final_response"] }

/-- The `self.agents` registry of `AssistantOrchestrator.__init__`. -/
def registryAgent (llmS : Except Unit String) (env : DbEnv) (nowDT : PyDate) :
    String → Option (OState → OState)
  | "ingestion" => some ingestionRun
  | "categorization" => some categorizationRun
  | "transaction_query" => some (transactionQueryRun env nowDT)
  | "expense" => some expenseRun
  | "budget" => some budgetRun
  | "forecasting" => some (forecastingRun nowDT)
  | "behaviour" => some behaviourRun
  | "sentiment" => some sentimentRun
  | "investment" => some investmentRun
  | "learning" => some learningRun
  | "financial_health" => some financialHealthRun
  | "synthesizer" => some (synthesizerRun llmS)
  | _ => none

/-- `AssistantOrchestrator.run`: intent, user state, planner; on a
clarification request the plan is skipped and only the clarification and
final-response stages run; otherwise the planned stages run in order
followed by review, memory and final response. -/
noncomputable def orchestratorRun (llmI llmS : Except Unit String) (env : DbEnv)
    (nowDT : PyDate) (s0 : OState) : OState :=
  let s1 := { s0 with citations := some (s0.citations.getD []) }
  let s2 := plannerRun (userStateRun env nowDT (intentDetectionRun llmI nowDT s1))
  if s2.needs_clarification.getD false then
    finalRun (clarificationRun s2)
  else
    let s3 := (s2.plan.getD []).foldl (fun st step =>
      match registryAgent llmS env nowDT step with
      | some f => f st
      | none => st) s2
    finalRun (memoryRun (reviewRun s3))

/-- Stage contract used by the trace-monotonicity claim: the stage only
appends to `agent_trace` and never removes a present state key. -/
def StageOk (f : OState → OState) : Prop :=
  ∀ s : OState, (∃ u, (f s).agent_trace = s.agent_trace ++ u) ∧
    ∀ k : StateKey, hasKey s k = true → hasKey (f s) k = true

/-- Every stage function the orchestrator can invoke in a run: the three
head agents, the clarification agent, the twelve registry agents, and
the review, memory and final-response agents. -/
noncomputable def allStages (llmI llmS : Except Unit String) (env : DbEnv)
    (nowDT : PyDate) : List (OState → OState) :=
  [intentDetectionRun llmI nowDT, userStateRun env nowDT, plannerRun,
   clarificationRun, ingestionRun, categorizationRun,
   transactionQueryRun env nowDT, expenseRun, budgetRun,
   forecastingRun nowDT, behaviourRun, sentimentRun, investmentRun,
   learningRun, financialHealthRun, synthesizerRun llmS, reviewRun,
   memoryRun, finalRun]

/-- An empty collaborator environment (no transactions, no goals, no
dialogue, empty corpus, constant hash). -/
def env0 : DbEnv :=
  { transactions := []
    profile := { name := "", goals := [], recent_transaction_count := 0,
                 recent_spend_30_entries := 0 }
    dialogue := []
    prefs := { style_preference := "balanced", tone_preference := "neutral",
               style_scores := { concise := 0, detailed := 0,
                                 example_driven := 0, balanced := 0 } }
    corpus := []
    hash := fun _ => 0 }

/-- A concrete current datetime for the orchestrator witnesses. -/
def now0 : PyDate := ⟨2026, 3, 15, 0⟩

/-- The intro line `_fallback_summary` selects from the mood label. -/
def fallbackIntro (s : OState) : String :=
  if (s.sentiment_report.map (·.mood_label)).getD "calm" = "support_needed" then
    "You are doing better than you think. We can keep this simple and safe."
  else if (s.sentiment_report.map (·.mood_label)).getD "calm" = "curious" then
    "Great question. Here is the clearest path."
  else "You are on the right track."

/-! ## Concrete sample data used in the witness evaluations -/

/-- Eight equal debit transactions (mean 10, population standard deviation
0, anomaly threshold 10). -/
def equalAnomalyDocs : List Tx :=
  [⟨10, "debit", "Other", "d1", 0⟩, ⟨10, "debit", "Other", "d2", 0⟩,
   ⟨10, "debit", "Other", "d3", 0⟩, ⟨10, "debit", "Other", "d4", 0⟩,
   ⟨10, "debit", "Other", "d5", 0⟩, ⟨10, "debit", "Other", "d6", 0⟩,
   ⟨10, "debit", "Other", "d7", 0⟩, ⟨10, "debit", "Other", "d8", 0⟩]

/-- Eight debit transactions with one clear outlier (mean 10, population
standard deviation 3, anomaly threshold 16). -/
def outlierAnomalyDocs : List Tx :=
  [⟨10, "debit", "Other", "a1", 0⟩, ⟨10, "debit", "Other", "a2", 0⟩,
   ⟨10, "debit", "Other", "a3", 0⟩, ⟨10, "debit", "Other", "a4", 0⟩,
   ⟨10, "debit", "Other", "a5", 0⟩, ⟨10, "debit", "Other", "a6", 0⟩,
   ⟨4, "debit", "Other", "small", 0⟩, ⟨16, "debit", "Other", "spike", 0⟩]

/-- Three debit transactions around `now = 8640000` (day 100): one in the
previous 30-day window, one in the last day, one 10 days back. -/
def velocityDocs : List Tx :=
  [⟨50, "debit", "Other", "prev", 5184000⟩,
   ⟨100, "debit", "Other", "recent", 8553600⟩,
   ⟨20, "debit", "Other", "mid", 7776000⟩]

/-- Scenario ledger: ten 20-unit debits dated 2024-03-10 (inside the
last-week range of 2024-03-15) and five 20-unit debits dated 2024-02-01
(outside it). -/
def lastWeekDocs : List Tx :=
  List.replicate 10 ⟨20, "debit", "Food", "inside", dtToInstant ⟨2024, 3, 10, 0⟩⟩ ++
    List.replicate 5 ⟨20, "debit", "Food", "outside", dtToInstant ⟨2024, 2, 1, 0⟩⟩

/-! ## Theorems -/

theorem roundHalfEven_intCast (n : ℤ) : roundHalfEven (n : ℚ) = n := by
  simp [roundHalfEven]

/-- `round(x, 2)` is the identity on whole numbers of cents. -/
theorem pyRound2_cents (n : ℤ) : pyRound2 ((n : ℚ) / 100) = (n : ℚ) / 100 := by
  unfold pyRound2
  rw [div_mul_cancel₀ (b := (100 : ℚ)) (n : ℚ) (by norm_num), roundHalfEven_intCast]

/-- A list of whole-cent rationals sums to a whole number of cents. -/
theorem sum_cents (l : List ℚ) (h : ∀ x ∈ l, ∃ n : ℤ, x = (n : ℚ) / 100) :
    ∃ m : ℤ, l.sum = (m : ℚ) / 100 := by
  induction l with
  | nil => exact ⟨0, by norm_num⟩
  | cons a tl ih =>
    obtain ⟨n, hn⟩ := h a (by simp)
    obtain ⟨m, hm⟩ := ih (fun x hx => h x (by simp [hx]))
    refine ⟨n + m, ?_⟩
    rw [List.sum_cons, hn, hm]
    push_cast
    ring

/-- Reordering the source's two filters (window first, then type) into a
single conjunctive filter. -/
theorem snapshot_filter_comm (docs : List Tx) (ty : String) (cutoff : ℤ) :
    (docs.filter (fun d => cutoff ≤ d.t)).filter (fun d => d.transaction_type == ty) =
      docs.filter (fun d => d.transaction_type == ty ∧ cutoff ≤ d.t) := by
  induction docs with
  | nil => rfl
  | cons a tl ih =>
    by_cases h1 : cutoff ≤ a.t <;> by_cases h2 : a.transaction_type = ty <;>
      simp [List.filter_cons, h1, h2, ih]

/-- C1 (amended): snapshot conservation.  For whole-cent amounts,
`total_debit` is the sum of debit amounts with timestamp at or after
`now - days` (the source imposes no upper bound, so future-dated
transactions also count), `total_credit` is the credit analogue,
`net_cashflow = total_credit - total_debit`, and with zero transactions the
count and all totals are `0` with an empty category list; the function is
total, so it never fails. -/
theorem c1_snapshot_conservation (docs : List Tx) (days : ℕ) (now : ℤ)
    (hc : ∀ tx ∈ docs, ∃ n : ℤ, tx.amount = (n : ℚ) / 100) :
    (financial_snapshot docs days now).total_debit = codeWindowDebitSum docs days now ∧
    (financial_snapshot docs days now).total_credit = codeWindowCreditSum docs days now ∧
    (financial_snapshot docs days now).net_cashflow =
      (financial_snapshot docs days now).total_credit -
        (financial_snapshot docs days now).total_debit ∧
    (financial_snapshot [] days now).transaction_count = 0 ∧
    (financial_snapshot [] days now).total_debit = 0 ∧
    (financial_snapshot [] days now).total_credit = 0 ∧
    (financial_snapshot [] days now).net_cashflow = 0 ∧
    (financial_snapshot [] days now).top_categories = [] := by
  have hmem :
      ∀ (ty : String) (x : ℚ),
        x ∈ (((docs.filter (fun d => now - (days : ℤ) * secsPerDay ≤ d.t)).filter
              (fun d => d.transaction_type == ty)).map (·.amount)) →
          ∃ n : ℤ, x = (n : ℚ) / 100 := by
    intro ty x hx
    simp only [List.mem_map, List.mem_filter] at hx
    obtain ⟨tx, ⟨⟨htx, _⟩, _⟩, rfl⟩ := hx
    exact hc tx htx
  obtain ⟨md, hmd⟩ :=
    sum_cents (((docs.filter (fun d => now - (days : ℤ) * secsPerDay ≤ d.t)).filter
        (fun d => d.transaction_type == "debit")).map (·.amount)) (hmem "debit")
  obtain ⟨mc, hmc⟩ :=
    sum_cents (((docs.filter (fun d => now - (days : ℤ) * secsPerDay ≤ d.t)).filter
        (fun d => d.transaction_type == "credit")).map (·.amount)) (hmem "credit")
  have hdeb : (financial_snapshot docs days now).total_debit =
      codeWindowDebitSum docs days now := by
    show pyRound2 _ = _
    rw [hmd, pyRound2_cents, codeWindowDebitSum, ← snapshot_filter_comm, ← hmd]
  have hcred : (financial_snapshot docs days now).total_credit =
      codeWindowCreditSum docs days now := by
    show pyRound2 _ = _
    rw [hmc, pyRound2_cents, codeWindowCreditSum, ← snapshot_filter_comm, ← hmc]
  have hnet : (financial_snapshot docs days now).net_cashflow =
      (financial_snapshot docs days now).total_credit -
        (financial_snapshot docs days now).total_debit := by
    show pyRound2 _ = pyRound2 _ - pyRound2 _
    rw [hmd, hmc, pyRound2_cents, pyRound2_cents]
    have : ((mc : ℚ) / 100 - (md : ℚ) / 100) = ((mc - md : ℤ) : ℚ) / 100 := by
      push_cast; ring
    rw [this, pyRound2_cents]
  refine ⟨hdeb, hcred, hnet, ?_, ?_, ?_, ?_, ?_⟩ <;>
    simp [financial_snapshot, categoryTotals, sortByAmountDesc, pyRound2, roundHalfEven]

/-- C1 counterexample: the claim says `total_debit` sums debit amounts with
timestamp in the window (spec window `[now - days, now]`), but the source
only checks the lower bound: a transaction dated one day in the future is
counted, although the spec-window sum is `0`. -/
theorem c1_counterexample :
    (financial_snapshot [⟨100, "debit", "Other", "future", 86400⟩] 45 0).total_debit = 100 ∧
    specWindowDebitSum [⟨100, "debit", "Other", "future", 86400⟩] 45 0 = 0 := by
  constructor
  · norm_num [financial_snapshot, secsPerDay, pyRound2, roundHalfEven]
  · norm_num [specWindowDebitSum, secsPerDay]

/-- C1 witness: the conservation theorem evaluated on a concrete two-entry
ledger. -/
theorem c1_witness :
    (∀ tx ∈ ([⟨20, "debit", "Food", "lunch", 100⟩,
              ⟨7/2, "credit", "Other", "refund", 200⟩] : List Tx),
        ∃ n : ℤ, tx.amount = (n : ℚ) / 100) ∧
    (financial_snapshot
        [⟨20, "debit", "Food", "lunch", 100⟩,
         ⟨7/2, "credit", "Other", "refund", 200⟩] 45 86400).total_debit =
      codeWindowDebitSum
        [⟨20, "debit", "Food", "lunch", 100⟩,
         ⟨7/2, "credit", "Other", "refund", 200⟩] 45 86400 := by
  have hc : ∀ tx ∈ ([⟨20, "debit", "Food", "lunch", 100⟩,
      ⟨7/2, "credit", "Other", "refund", 200⟩] : List Tx),
      ∃ n : ℤ, tx.amount = (n : ℚ) / 100 := by
    intro tx htx
    fin_cases htx
    · exact ⟨2000, by norm_num⟩
    · exact ⟨350, by norm_num⟩
  exact ⟨hc, (c1_snapshot_conservation _ 45 86400 hc).1⟩

theorem roundHalfEven_le_ceil (q : ℚ) :
    roundHalfEven q = ⌊q⌋ ∨ roundHalfEven q = ⌊q⌋ + 1 := by
  unfold roundHalfEven
  simp only []
  split_ifs <;> simp

theorem roundHalfEven_mono {a b : ℚ} (h : a ≤ b) :
    roundHalfEven a ≤ roundHalfEven b := by
  have hf : ⌊a⌋ ≤ ⌊b⌋ := Int.floor_le_floor h
  rcases eq_or_lt_of_le hf with heq | hlt
  · have hr : a - (⌊a⌋ : ℚ) ≤ b - (⌊b⌋ : ℚ) := by
      rw [← heq]; linarith
    unfold roundHalfEven
    simp only []
    rw [← heq]
    split_ifs <;> first | omega | linarith
  · rcases roundHalfEven_le_ceil a with h1 | h1 <;>
      rcases roundHalfEven_le_ceil b with h2 | h2 <;> omega

theorem pyRound2_mono {a b : ℚ} (h : a ≤ b) : pyRound2 a ≤ pyRound2 b := by
  unfold pyRound2
  have := roundHalfEven_mono (a := a * 100) (b := b * 100) (by linarith)
  have hc : ((roundHalfEven (a * 100) : ℤ) : ℚ) ≤ ((roundHalfEven (b * 100) : ℤ) : ℚ) := by
    exact_mod_cast this
  linarith

theorem pyRound1_zero : pyRound1 0 = 0 := by
  norm_num [pyRound1, roundHalfEven]

/-- `mergeSort` with a descending key comparator is pairwise descending. -/
theorem sortedDesc_pairwise {α β : Type} [LinearOrder β] (key : α → β) (l : List α) :
    List.Pairwise (fun a b => key b ≤ key a)
      (l.mergeSort (fun a b => decide (key b ≤ key a))) := by
  have h := @List.sorted_mergeSort _ (fun a b => decide (key b ≤ key a))
    (fun a b c hab hbc => by
      simp only [decide_eq_true_eq] at *
      exact le_trans hbc hab)
    (fun a b => by
      simp only [Bool.or_eq_true, decide_eq_true_eq]
      exact le_total (key b) (key a))
    l
  exact h.imp (by simp)

/-- C2 (amended): anomaly gating.  With fewer than 8 recent debit samples
the anomalies list is empty.  With 8 or more samples, every recent debit
transaction whose amount is at or above `mean + 2 * populationStdDev` is
classified as an outlier and the returned list consists of the (up to) 5
largest such outliers, sorted by amount descending with length at most 5;
whenever at most 5 transactions meet the threshold, each of them appears
in the returned list, and every returned entry is a threshold-meeting
recent transaction.  (The unamended claim fails only because of the cap:
with more than 5 threshold-meeting transactions some are dropped.) -/
theorem c2_anomaly_gating (docs : List Tx) (days : ℕ) (now : ℤ) :
    ((analyticsRecent docs days now).length < 8 →
      (analytics_report docs days now).anomalies = []) ∧
    (8 ≤ (analyticsRecent docs days now).length →
      (analytics_report docs days now).anomalies.length ≤ 5 ∧
      List.Pairwise (fun a b => b.amount ≤ a.amount)
        (analytics_report docs days now).anomalies ∧
      ((anomalyOutliers (analyticsRecent docs days now)).length ≤ 5 →
        ∀ x ∈ analyticsRecent docs days now,
          anomalyThreshold (analyticsRecent docs days now) ≤ (x.amount : ℝ) →
            anomalyFormat x ∈ (analytics_report docs days now).anomalies) ∧
      (∀ a ∈ (analytics_report docs days now).anomalies,
        ∃ x ∈ analyticsRecent docs days now,
          anomalyThreshold (analyticsRecent docs days now) ≤ (x.amount : ℝ) ∧
            a = anomalyFormat x)) := by
  have hrep : (analytics_report docs days now).anomalies =
      anomaliesOf (analyticsRecent docs days now) := rfl
  constructor
  · intro hlt
    rw [hrep, anomaliesOf, if_neg (by omega)]
  · intro hge
    have hpos : anomaliesOf (analyticsRecent docs days now) =
        ((anomalyOutliers (analyticsRecent docs days now)).take 5).map anomalyFormat := by
      rw [anomaliesOf, if_pos hge]
    refine ⟨?_, ?_, ?_, ?_⟩
    · rw [hrep, hpos, List.length_map]
      exact List.length_take_le 5 _
    · rw [hrep, hpos]
      refine List.Pairwise.map _ (fun a b hab => ?_)
        (((sortedDesc_pairwise Tx.amount _)).sublist (List.take_sublist 5 _))
      exact pyRound2_mono hab
    · intro hcap x hx hthr
      rw [hrep, hpos, List.take_of_length_le hcap]
      refine List.mem_map.mpr ⟨x, ?_, rfl⟩
      unfold anomalyOutliers
      rw [List.mem_mergeSort]
      exact List.mem_filter.mpr ⟨hx, by simpa using hthr⟩
    · intro a ha
      rw [hrep, hpos] at ha
      obtain ⟨x, hx, rfl⟩ := List.mem_map.mp ha
      have hx' : x ∈ anomalyOutliers (analyticsRecent docs days now) :=
        (List.take_sublist 5 _).mem hx
      unfold anomalyOutliers at hx'
      rw [List.mem_mergeSort] at hx'
      obtain ⟨hmem, hthr⟩ := List.mem_filter.mp hx'
      exact ⟨x, hmem, by simpa using hthr, rfl⟩

theorem equalAnomalyRecent : analyticsRecent equalAnomalyDocs 90 0 = equalAnomalyDocs := by
  simp [analyticsRecent, equalAnomalyDocs, secsPerDay, List.filter]

theorem equalAnomalyThreshold :
    anomalyThreshold (analyticsRecent equalAnomalyDocs 90 0) = 10 := by
  rw [equalAnomalyRecent]
  have hmap : equalAnomalyDocs.map (·.amount) = [10, 10, 10, 10, 10, 10, 10, 10] := by
    simp [equalAnomalyDocs]
  have hvar : pvariance (equalAnomalyDocs.map (·.amount)) = 0 := by
    rw [hmap]; norm_num [pvariance, listMean]
  have hstd : pstdev (equalAnomalyDocs.map (·.amount)) = 0 := by
    rw [pstdev, hvar]; norm_num
  have hmean : listMean (equalAnomalyDocs.map (·.amount)) = 10 := by
    rw [hmap]; norm_num [listMean]
  rw [anomalyThreshold, hstd, hmean]
  norm_num

theorem equalAnomalyOutliers :
    anomalyOutliers (analyticsRecent equalAnomalyDocs 90 0) =
      equalAnomalyDocs.mergeSort (fun a b => decide (b.amount ≤ a.amount)) := by
  unfold anomalyOutliers
  rw [equalAnomalyThreshold, equalAnomalyRecent]
  congr 1
  simp only [equalAnomalyDocs, List.filter]
  norm_num

/-- C2 counterexample: with eight equal debit amounts the standard
deviation is `0`, so every transaction sits exactly at the threshold
`mean + 2σ` (and also at `mean + 3σ`), yet the returned list is capped at
5 entries — so some transaction at or above the threshold does not appear
in `anomalies`, refuting the claim's universal membership statement. -/
theorem c2_counterexample :
    8 ≤ (analyticsRecent equalAnomalyDocs 90 0).length ∧
    ∃ x ∈ analyticsRecent equalAnomalyDocs 90 0,
      anomalyThreshold (analyticsRecent equalAnomalyDocs 90 0) ≤ (x.amount : ℝ) ∧
      anomalyFormat x ∉ (analytics_report equalAnomalyDocs 90 0).anomalies := by
  have hlen : (analyticsRecent equalAnomalyDocs 90 0).length = 8 := by
    rw [equalAnomalyRecent]; rfl
  have hamt : ∀ x ∈ equalAnomalyDocs, x.amount = 10 := by
    intro x hx
    fin_cases hx <;> rfl
  have hthr : ∀ x ∈ equalAnomalyDocs,
      anomalyThreshold (analyticsRecent equalAnomalyDocs 90 0) ≤ (x.amount : ℝ) := by
    intro x hx
    rw [equalAnomalyThreshold, hamt x hx]
    norm_num
  have hrep : (analytics_report equalAnomalyDocs 90 0).anomalies =
      anomaliesOf (analyticsRecent equalAnomalyDocs 90 0) := rfl
  have hanom : (analytics_report equalAnomalyDocs 90 0).anomalies =
      ((anomalyOutliers (analyticsRecent equalAnomalyDocs 90 0)).take 5).map anomalyFormat := by
    rw [hrep, anomaliesOf, if_pos (by rw [hlen])]
  have hanomlen : (analytics_report equalAnomalyDocs 90 0).anomalies.length = 5 := by
    rw [hanom, List.length_map, List.length_take, equalAnomalyOutliers,
      List.length_mergeSort]
    rfl
  refine ⟨by rw [hlen], ?_⟩
  by_contra hno
  push_neg at hno
  have hall : ∀ x ∈ equalAnomalyDocs,
      anomalyFormat x ∈ (analytics_report equalAnomalyDocs 90 0).anomalies := by
    intro x hx
    exact hno x (by rw [equalAnomalyRecent]; exact hx) (hthr x hx)
  have hnodup : (equalAnomalyDocs.map anomalyFormat).Nodup := by
    refine List.Nodup.of_map (fun a => a.description) ?_
    have : (equalAnomalyDocs.map anomalyFormat).map (fun a => a.description) =
        ["d1", "d2", "d3", "d4", "d5", "d6", "d7", "d8"] := by
      simp [equalAnomalyDocs, anomalyFormat, strTake]
    rw [this]
    decide
  have hsub : equalAnomalyDocs.map anomalyFormat ⊆
      (analytics_report equalAnomalyDocs 90 0).anomalies := by
    intro a ha
    obtain ⟨x, hx, rfl⟩ := List.mem_map.mp ha
    exact hall x hx
  have hle := (List.subperm_of_subset hnodup hsub).length_le
  rw [hanomlen, List.length_map] at hle
  simp [equalAnomalyDocs] at hle

theorem outlierAnomalyRecent :
    analyticsRecent outlierAnomalyDocs 90 0 = outlierAnomalyDocs := by
  simp [analyticsRecent, outlierAnomalyDocs, secsPerDay, List.filter]

theorem outlierAnomalyThreshold :
    anomalyThreshold (analyticsRecent outlierAnomalyDocs 90 0) = 16 := by
  rw [outlierAnomalyRecent]
  have hmap : outlierAnomalyDocs.map (·.amount) = [10, 10, 10, 10, 10, 10, 4, 16] := by
    simp [outlierAnomalyDocs]
  have hvar : pvariance (outlierAnomalyDocs.map (·.amount)) = 9 := by
    rw [hmap]; norm_num [pvariance, listMean]
  have hstd : pstdev (outlierAnomalyDocs.map (·.amount)) = 3 := by
    rw [pstdev, hvar, show ((9 : ℚ) : ℝ) = 3 ^ 2 by norm_num, Real.sqrt_sq (by norm_num)]
  have hmean : listMean (outlierAnomalyDocs.map (·.amount)) = 10 := by
    rw [hmap]; norm_num [listMean]
  rw [anomalyThreshold, hstd, hmean]
  norm_num

theorem outlierAnomalyOutliers :
    anomalyOutliers (analyticsRecent outlierAnomalyDocs 90 0) =
      [⟨16, "debit", "Other", "spike", 0⟩] := by
  unfold anomalyOutliers
  rw [outlierAnomalyThreshold, outlierAnomalyRecent]
  have hfil : outlierAnomalyDocs.filter
      (fun x => decide ((16 : ℝ) ≤ (x.amount : ℝ))) =
        [⟨16, "debit", "Other", "spike", 0⟩] := by
    simp only [outlierAnomalyDocs, List.filter]
    norm_num
  rw [hfil, List.mergeSort_singleton]

/-- C2 witness: the gating theorem applied to a concrete eight-point
sample whose single outlier (amount 16 = mean + 2σ = threshold) appears in
the returned anomalies. -/
theorem c2_witness :
    8 ≤ (analyticsRecent outlierAnomalyDocs 90 0).length ∧
    (anomalyOutliers (analyticsRecent outlierAnomalyDocs 90 0)).length ≤ 5 ∧
    (⟨16, "debit", "Other", "spike", 0⟩ : Tx) ∈ analyticsRecent outlierAnomalyDocs 90 0 ∧
    anomalyThreshold (analyticsRecent outlierAnomalyDocs 90 0) ≤
      (((16 : ℚ)) : ℝ) ∧
    anomalyFormat ⟨16, "debit", "Other", "spike", 0⟩ ∈
      (analytics_report outlierAnomalyDocs 90 0).anomalies := by
  have h8 : 8 ≤ (analyticsRecent outlierAnomalyDocs 90 0).length := by
    rw [outlierAnomalyRecent]; simp [outlierAnomalyDocs]
  have hcap : (anomalyOutliers (analyticsRecent outlierAnomalyDocs 90 0)).length ≤ 5 := by
    rw [outlierAnomalyOutliers]; simp
  have hmem : (⟨16, "debit", "Other", "spike", 0⟩ : Tx) ∈
      analyticsRecent outlierAnomalyDocs 90 0 := by
    rw [outlierAnomalyRecent]; simp [outlierAnomalyDocs]
  have hthr : anomalyThreshold (analyticsRecent outlierAnomalyDocs 90 0) ≤
      (((16 : ℚ)) : ℝ) := by
    rw [outlierAnomalyThreshold]; norm_num
  exact ⟨h8, hcap, hmem, hthr,
    (((c2_anomaly_gating outlierAnomalyDocs 90 0).2 h8).2.2.1) hcap _ hmem hthr⟩

/-- C8: guarded percentage-change convention.  Both the period change and
the 7-day velocity equal `(recent - prev) / prev * 100` (reported after the
source's final one-decimal rounding) when the previous total is strictly
positive, and are exactly `0` when the previous total is at most `0`; the
division is therefore never performed on a non-positive denominator. -/
theorem c8_guarded_pct_change (docs : List Tx) (days : ℕ) (now : ℤ) :
    ((summarize (analyticsPrevious docs days now)).total_spend ≤ 0 →
      (analytics_report docs days now).period_change_pct = 0) ∧
    (0 < (summarize (analyticsPrevious docs days now)).total_spend →
      (analytics_report docs days now).period_change_pct =
        pyRound1 (((summarize (analyticsRecent docs days now)).total_spend -
            (summarize (analyticsPrevious docs days now)).total_spend) /
          (summarize (analyticsPrevious docs days now)).total_spend * 100)) ∧
    (spendPrev7 docs now ≤ 0 →
      (analytics_report docs days now).spend_velocity_7d.change_pct = 0) ∧
    (0 < spendPrev7 docs now →
      (analytics_report docs days now).spend_velocity_7d.change_pct =
        pyRound1 ((spend7 docs days now - spendPrev7 docs now) /
          spendPrev7 docs now * 100)) := by
  have h1 : (analytics_report docs days now).period_change_pct =
      pyRound1 (pctChangeOf (summarize (analyticsPrevious docs days now)).total_spend
        (summarize (analyticsRecent docs days now)).total_spend) := rfl
  have h2 : (analytics_report docs days now).spend_velocity_7d.change_pct =
      pyRound1 (pctChangeOf (spendPrev7 docs now) (spend7 docs days now)) := rfl
  refine ⟨?_, ?_, ?_, ?_⟩ <;> intro h
  · rw [h1]
    simp only [pctChangeOf]
    rw [if_neg (not_lt.mpr h), pyRound1_zero]
  · rw [h1]
    simp only [pctChangeOf]
    rw [if_pos h]
  · rw [h2]
    simp only [pctChangeOf]
    rw [if_neg (not_lt.mpr h), pyRound1_zero]
  · rw [h2]
    simp only [pctChangeOf]
    rw [if_pos h]

theorem velocityDocsPrevTotal :
    (summarize (analyticsPrevious velocityDocs 30 8640000)).total_spend = 50 := by
  have h : analyticsPrevious velocityDocs 30 8640000 =
      [⟨50, "debit", "Other", "prev", 5184000⟩] := by
    simp only [analyticsPrevious, velocityDocs, secsPerDay, List.filter]
    norm_num
  rw [h]
  show pyRound2 ([(50 : ℚ)].sum) = 50
  norm_num [pyRound2, roundHalfEven]

theorem velocityDocsRecentTotal :
    (summarize (analyticsRecent velocityDocs 30 8640000)).total_spend = 120 := by
  have h : analyticsRecent velocityDocs 30 8640000 =
      [⟨100, "debit", "Other", "recent", 8553600⟩,
       ⟨20, "debit", "Other", "mid", 7776000⟩] := by
    simp only [analyticsRecent, velocityDocs, secsPerDay, List.filter]
    norm_num
  rw [h]
  show pyRound2 ([(100 : ℚ), 20].sum) = 120
  norm_num [pyRound2, roundHalfEven]

theorem velocityDocsSpendPrev7 : spendPrev7 velocityDocs 8640000 = 20 := by
  simp only [spendPrev7, velocityDocs, secsPerDay, List.filter]
  norm_num

theorem velocityDocsSpend7 : spend7 velocityDocs 30 8640000 = 100 := by
  have h : analyticsRecent velocityDocs 30 8640000 =
      [⟨100, "debit", "Other", "recent", 8553600⟩,
       ⟨20, "debit", "Other", "mid", 7776000⟩] := by
    simp only [analyticsRecent, velocityDocs, secsPerDay, List.filter]
    norm_num
  rw [spend7, h]
  simp only [secsPerDay, List.filter]
  norm_num

/-- C8 witness: concrete ledger where the previous period total (50) and
the previous 7-day spend (20) are positive, giving a period change of 140%
and a velocity change of 400%. -/
theorem c8_witness :
    0 < (summarize (analyticsPrevious velocityDocs 30 8640000)).total_spend ∧
    0 < spendPrev7 velocityDocs 8640000 ∧
    (analytics_report velocityDocs 30 8640000).period_change_pct = 140 ∧
    (analytics_report velocityDocs 30 8640000).spend_velocity_7d.change_pct = 400 := by
  have hp : 0 < (summarize (analyticsPrevious velocityDocs 30 8640000)).total_spend := by
    rw [velocityDocsPrevTotal]; norm_num
  have hv : 0 < spendPrev7 velocityDocs 8640000 := by
    rw [velocityDocsSpendPrev7]; norm_num
  have h := c8_guarded_pct_change velocityDocs 30 8640000
  refine ⟨hp, hv, ?_, ?_⟩
  · rw [h.2.1 hp, velocityDocsPrevTotal, velocityDocsRecentTotal]
    norm_num [pyRound1, roundHalfEven]
  · rw [h.2.2.2 hv, velocityDocsSpendPrev7, velocityDocsSpend7]
    norm_num [pyRound1, roundHalfEven]

theorem rawVec_nonneg (h : String → ℕ) (dims : ℕ) (text : String) (i : Fin dims) :
    0 ≤ rawVec h dims text i := by
  unfold rawVec
  positivity

theorem embedNorm_pos (h : String → ℕ) (dims : ℕ) (text : String) :
    0 < embedNorm h dims text := by
  unfold embedNorm
  simp only []
  split_ifs with hz
  · norm_num
  · exact lt_of_le_of_ne (Real.sqrt_nonneg _) (Ne.symm hz)

theorem embed_nonneg (h : String → ℕ) (dims : ℕ) (text : String) (i : Fin dims) :
    0 ≤ embed h dims text i :=
  div_nonneg (rawVec_nonneg h dims text i) (embedNorm_pos h dims text).le

theorem embed_sq_sum (h : String → ℕ) (dims : ℕ) (hd : 0 < dims) (text : String) :
    (∑ i : Fin dims, embed h dims text i ^ 2) = 1 ∨
      ∀ i, embed h dims text i = 0 := by
  cases e : semTokenize text with
  | nil =>
    right
    intro i
    unfold embed rawVec
    rw [e]
    simp
  | cons tok toks =>
    left
    have hslot : h tok % dims < dims := Nat.mod_lt _ hd
    have h1 : 1 ≤ rawVec h dims text ⟨h tok % dims, hslot⟩ := by
      unfold rawVec
      rw [e, List.filter_cons_of_pos (by simp)]
      have : 1 ≤ ((tok :: (toks.filter fun tk => decide (h tk % dims = h tok % dims))).length) := by
        simp
      exact_mod_cast le_trans this (by
        simp)
    have hS : 0 < ∑ i : Fin dims, rawVec h dims text i ^ 2 := by
      have hsq : (1 : ℝ) ≤ rawVec h dims text ⟨h tok % dims, hslot⟩ ^ 2 := by
        nlinarith [rawVec_nonneg h dims text ⟨h tok % dims, hslot⟩]
      have hle : rawVec h dims text ⟨h tok % dims, hslot⟩ ^ 2 ≤
          ∑ i : Fin dims, rawVec h dims text i ^ 2 :=
        Finset.single_le_sum (f := fun i => rawVec h dims text i ^ 2)
          (fun i _ => sq_nonneg _) (Finset.mem_univ _)
      linarith
    have hnorm : embedNorm h dims text =
        Real.sqrt (∑ i : Fin dims, rawVec h dims text i ^ 2) := by
      unfold embedNorm
      simp only []
      rw [if_neg (ne_of_gt (Real.sqrt_pos.mpr hS))]
    have hsqrt2 : (Real.sqrt (∑ i : Fin dims, rawVec h dims text i ^ 2)) ^ 2 =
        ∑ i : Fin dims, rawVec h dims text i ^ 2 := Real.sq_sqrt hS.le
    unfold embed
    rw [hnorm]
    have : ∑ i : Fin dims,
        (rawVec h dims text i / Real.sqrt (∑ j : Fin dims, rawVec h dims text j ^ 2)) ^ 2 =
        (∑ i : Fin dims, rawVec h dims text i ^ 2) /
          (∑ j : Fin dims, rawVec h dims text j ^ 2) := by
      rw [Finset.sum_div]
      refine Finset.sum_congr rfl (fun i _ => ?_)
      rw [div_pow, hsqrt2]
    rw [this, div_self (ne_of_gt hS)]

theorem embed_sq_sum_le_one (h : String → ℕ) (dims : ℕ) (hd : 0 < dims) (text : String) :
    (∑ i : Fin dims, embed h dims text i ^ 2) ≤ 1 := by
  rcases embed_sq_sum h dims hd text with heq | hz
  · rw [heq]
  · simp [hz]

theorem cosineSim_bounds (h : String → ℕ) (dims : ℕ) (hd : 0 < dims)
    (ta tb : String) :
    0 ≤ cosineSim (embed h dims ta) (embed h dims tb) ∧
      cosineSim (embed h dims ta) (embed h dims tb) ≤ 1 := by
  have hna := embed_nonneg h dims ta
  have hnb := embed_nonneg h dims tb
  have ha := embed_sq_sum_le_one h dims hd ta
  have hb := embed_sq_sum_le_one h dims hd tb
  unfold cosineSim
  have h0 : 0 ≤ ∑ i : Fin dims, embed h dims ta i * embed h dims tb i :=
    Finset.sum_nonneg (fun i _ => mul_nonneg (hna i) (hnb i))
  have hcs := Finset.sum_mul_sq_le_sq_mul_sq Finset.univ (embed h dims ta) (embed h dims tb)
  have hb0 : (0 : ℝ) ≤ ∑ i : Fin dims, embed h dims tb i ^ 2 :=
    Finset.sum_nonneg (fun i _ => sq_nonneg _)
  have h1 : (∑ i : Fin dims, embed h dims ta i ^ 2) *
      (∑ i : Fin dims, embed h dims tb i ^ 2) ≤ 1 := mul_le_one₀ ha hb0 hb
  have h2 : (∑ i : Fin dims, embed h dims ta i * embed h dims tb i) ^ 2 ≤ 1 :=
    le_trans hcs h1
  exact ⟨h0, by nlinarith [h0, h2]⟩

/-- C10: embedding score bounds.  Every embedding has non-negative
components and unit sum of squares (or is the all-zero vector when the
text has no tokens), so every similarity score attached to a search result
lies in `[0, 1]`.  Stated for any hash function and any positive slot
count (the source constructs the searcher with `dims = 512`). -/
theorem c10_embedding_bounds (h : String → ℕ) (dims : ℕ) (hd : 0 < dims)
    (text query : String) (docs : List SemanticDoc) (limit : ℤ) :
    (∀ i, 0 ≤ embed h dims text i) ∧
    ((∑ i : Fin dims, embed h dims text i ^ 2) = 1 ∨
      ∀ i, embed h dims text i = 0) ∧
    (∀ r ∈ semSearch h dims query docs limit, 0 ≤ r.score ∧ r.score ≤ 1) := by
  refine ⟨embed_nonneg h dims text, embed_sq_sum h dims hd text, ?_⟩
  intro r hr
  unfold semSearch at hr
  simp only [] at hr
  have hr' := (List.take_sublist _ _).mem hr
  rw [List.mem_mergeSort] at hr'
  obtain ⟨doc, _, rfl⟩ := List.mem_map.mp hr'
  exact cosineSim_bounds h dims hd query _

theorem semSearchSingleton :
    semSearch (fun _ => 0) 512 "a" [⟨"m", "a", []⟩] 1 =
      [⟨cosineSim (embed (fun _ => 0) 512 "a") (embed (fun _ => 0) 512 "a"),
        "m", "a", []⟩] := by
  unfold semSearch
  simp only []
  have hfil : ([⟨"m", "a", []⟩] : List SemanticDoc).filter
      (fun doc => !(pyStrip doc.text.data).isEmpty) = [⟨"m", "a", []⟩] := by rfl
  rw [hfil]
  simp only [List.map_cons, List.map_nil, List.mergeSort_singleton]
  rfl

set_option maxRecDepth 8000 in
/-- C10 witness: the bounds theorem evaluated at a concrete hash, the
source's 512 slots, a one-token text, and a one-document corpus whose
single result's score is then certified to lie in `[0, 1]`. -/
theorem c10_witness :
    0 < 512 ∧
    (⟨cosineSim (embed (fun _ => 0) 512 "a") (embed (fun _ => 0) 512 "a"),
        "m", "a", []⟩ : ScoredDoc) ∈ semSearch (fun _ => 0) 512 "a" [⟨"m", "a", []⟩] 1 ∧
    (0 ≤ cosineSim (embed (fun _ => 0) 512 "a") (embed (fun _ => 0) 512 "a") ∧
      cosineSim (embed (fun _ => 0) 512 "a") (embed (fun _ => 0) 512 "a") ≤ 1) := by
  have hd : (0 : ℕ) < 512 := by norm_num
  have hmem : (⟨cosineSim (embed (fun _ => 0) 512 "a") (embed (fun _ => 0) 512 "a"),
      "m", "a", []⟩ : ScoredDoc) ∈ semSearch (fun _ => 0) 512 "a" [⟨"m", "a", []⟩] 1 := by
    rw [semSearchSingleton]
    exact List.mem_singleton.mpr rfl
  exact ⟨hd, hmem,
    (c10_embedding_bounds (fun _ => 0) 512 hd "a" "a" [⟨"m", "a", []⟩] 1).2.2 _ hmem⟩

/-- C9 (amended): minimum-one-result clamp.  When some corpus document has
non-blank text (non-empty after stripping whitespace — the source strips
before the emptiness test), the search returns at least one result even
for a zero or negative limit, because the result list is truncated to
`max(1, limit)` entries; the result list is empty exactly when every
corpus document's text is blank after stripping. -/
theorem c9_min_one_result (h : String → ℕ) (dims : ℕ) (query : String)
    (docs : List SemanticDoc) (limit : ℤ) :
    ((∃ d ∈ docs, pyStrip d.text.data ≠ []) →
      1 ≤ (semSearch h dims query docs limit).length) ∧
    ((semSearch h dims query docs limit) = [] ↔
      ∀ d ∈ docs, pyStrip d.text.data = []) := by
  have hcap : 1 ≤ (max 1 limit).toNat := by
    have : (1 : ℤ) ≤ max 1 limit := le_max_left 1 limit
    omega
  have hlen : (semSearch h dims query docs limit).length =
      min (max 1 limit).toNat
        ((docs.filter (fun doc => !(pyStrip doc.text.data).isEmpty)).length) := by
    unfold semSearch
    simp only []
    rw [List.length_take, List.length_mergeSort, List.length_map]
  constructor
  · rintro ⟨d, hd, hne⟩
    rw [hlen]
    have hmem : d ∈ docs.filter (fun doc => !(pyStrip doc.text.data).isEmpty) :=
      List.mem_filter.mpr ⟨hd, by simpa [List.isEmpty_iff] using hne⟩
    have hpos : 0 < (docs.filter (fun doc => !(pyStrip doc.text.data).isEmpty)).length :=
      List.length_pos.mpr (fun he => by simp [he] at hmem)
    omega
  · rw [← List.length_eq_zero, hlen]
    constructor
    · intro hz d hd
      have hfe : (docs.filter (fun doc => !(pyStrip doc.text.data).isEmpty)).length = 0 := by
        omega
      rw [List.length_eq_zero, List.filter_eq_nil] at hfe
      have := hfe d hd
      simpa [List.isEmpty_iff] using this
    · intro hall
      have hfe : docs.filter (fun doc => !(pyStrip doc.text.data).isEmpty) = [] := by
        rw [List.filter_eq_nil]
        intro d hd
        simp [List.isEmpty_iff, hall d hd]
      rw [hfe]
      simp

/-- C9 counterexample: a corpus whose only document has the non-empty text
`" "` (a single space) yields an empty search result, because the source
strips the text before the emptiness test — refuting the claim that an
empty result occurs only when every document's text is empty. -/
theorem c9_counterexample :
    semSearch (fun _ => 0) 512 "anything" [⟨"memory", " ", []⟩] 3 = [] ∧
    (" " : String) ≠ "" := by
  constructor
  · unfold semSearch
    simp only []
    have hfil : ([⟨"memory", " ", []⟩] : List SemanticDoc).filter
        (fun doc => !(pyStrip doc.text.data).isEmpty) = [] := by rfl
    rw [hfil]
    simp
  · decide

/-- C9 witness: the amended theorem applied to a one-document corpus with
non-blank text and limit `0`. -/
theorem c9_witness :
    (∃ d ∈ ([⟨"memory", "hello", []⟩] : List SemanticDoc),
      pyStrip d.text.data ≠ []) ∧
    1 ≤ (semSearch (fun _ => 0) 512 "query" [⟨"memory", "hello", []⟩] 0).length := by
  have hex : ∃ d ∈ ([⟨"memory", "hello", []⟩] : List SemanticDoc),
      pyStrip d.text.data ≠ [] := ⟨⟨"memory", "hello", []⟩, by simp, by decide⟩
  exact ⟨hex,
    (c9_min_one_result (fun _ => 0) 512 "query" [⟨"memory", "hello", []⟩] 0).1 hex⟩

/-- C5 (amended): last-month determinism.  For any current date, a message
containing "last month" (or "previous month") — provided it does not also
contain one of the phrases the source checks earlier (today, yesterday,
this week, last/previous week, the two-week phrases, this month) and
contains no parseable explicit date token, which would override the phrase
— resolves to the full previous calendar month: start at 00:00 of the
first day of the previous month, exclusive end at 00:00 of the first day
of the current month, independent of the day-of-month.  And a message
matching no phrase, no `last N days/weeks/months` pattern, and no explicit
date yields the default window of the last 45 days with `explicit=false`. -/
theorem c5_time_range (msg : String) (now : PyDate) :
    ((containsTok "last month".data (pyStrip (pyLower msg.data)) = true ∨
        containsTok "previous month".data (pyStrip (pyLower msg.data)) = true) →
      containsTok "today".data (pyStrip (pyLower msg.data)) = false →
      containsTok "yesterday".data (pyStrip (pyLower msg.data)) = false →
      containsTok "this week".data (pyStrip (pyLower msg.data)) = false →
      containsTok "last week".data (pyStrip (pyLower msg.data)) = false →
      containsTok "previous week".data (pyStrip (pyLower msg.data)) = false →
      containsTok "last two week".data (pyStrip (pyLower msg.data)) = false →
      containsTok "last 2 week".data (pyStrip (pyLower msg.data)) = false →
      containsTok "past 2 week".data (pyStrip (pyLower msg.data)) = false →
      containsTok "this month".data (pyStrip (pyLower msg.data)) = false →
      parsedDatesOf (pyStrip (pyLower msg.data)) now = [] →
        (extract_time_range msg now).tstart = specPrevMonthStart now ∧
        (extract_time_range msg now).tend = ⟨now.year, now.month, 1, 0⟩ ∧
        (extract_time_range msg now).explicit = true ∧
        (extract_time_range msg now).label = "last_month") ∧
    (containsTok "today".data (pyStrip (pyLower msg.data)) = false →
      containsTok "yesterday".data (pyStrip (pyLower msg.data)) = false →
      containsTok "this week".data (pyStrip (pyLower msg.data)) = false →
      containsTok "last week".data (pyStrip (pyLower msg.data)) = false →
      containsTok "previous week".data (pyStrip (pyLower msg.data)) = false →
      containsTok "last two week".data (pyStrip (pyLower msg.data)) = false →
      containsTok "last 2 week".data (pyStrip (pyLower msg.data)) = false →
      containsTok "past 2 week".data (pyStrip (pyLower msg.data)) = false →
      containsTok "this month".data (pyStrip (pyLower msg.data)) = false →
      containsTok "last month".data (pyStrip (pyLower msg.data)) = false →
      containsTok "previous month".data (pyStrip (pyLower msg.data)) = false →
      searchLastN (pyStrip (pyLower msg.data)) = none →
      parsedDatesOf (pyStrip (pyLower msg.data)) now = [] →
        (extract_time_range msg now).tstart = subDays 45 now ∧
        (extract_time_range msg now).tend = now ∧
        (extract_time_range msg now).explicit = false ∧
        (extract_time_range msg now).label = "last_45_days") := by
  constructor
  · intro h1 h2 h3 h4 h5 h6 h7 h8 h9 h10 h11
    have hm : (containsTok "last month".data (pyStrip (pyLower msg.data)) ∨
        containsTok "previous month".data (pyStrip (pyLower msg.data))) := by
      rcases h1 with h | h
      · exact Or.inl h
      · exact Or.inr h
    unfold extract_time_range
    simp only [h2, h3, h4, h5, h6, h7, h8, h9, h10, h11]
    simp only [Bool.false_eq_true, if_false, or_self, or_false, false_or, hm, if_true]
    simp only [specPrevMonthStart, predDay]
    by_cases hmo : 1 < now.month
    · simp [hmo]
    · simp [hmo]
  · intro h2 h3 h4 h5 h6 h7 h8 h9 h10 h11 h12 h13 h14
    unfold extract_time_range
    simp only [h2, h3, h4, h5, h6, h7, h8, h9, h10, h11, h12, h13, h14]
    simp

/-- C5 counterexample: a message containing "last month" need not resolve
to the previous calendar month — "today" is checked first, so
`"today vs last month"` on 2024-03-15 yields the "today" window instead of
Feb 1 … Mar 1. -/
theorem c5_counterexample :
    strHas "today vs last month" "last month" = true ∧
    (extract_time_range "today vs last month" ⟨2024, 3, 15, 0⟩).label = "today" ∧
    (extract_time_range "today vs last month" ⟨2024, 3, 15, 0⟩).tstart ≠ ⟨2024, 2, 1, 0⟩ ∧
    (extract_time_range "today vs last month" ⟨2024, 3, 15, 0⟩).tend ≠ ⟨2024, 3, 1, 0⟩ := by
  refine ⟨by decide, by decide, by decide, by decide⟩

/-- C5 witness: the amended theorem applied to `"last month"` on
2024-03-15 (previous calendar month = February 2024) and to a phrase-free
message for the 45-day default. -/
theorem c5_witness :
    ((extract_time_range "last month" ⟨2024, 3, 15, 0⟩).tstart = ⟨2024, 2, 1, 0⟩ ∧
      (extract_time_range "last month" ⟨2024, 3, 15, 0⟩).tend = ⟨2024, 3, 1, 0⟩ ∧
      (extract_time_range "last month" ⟨2024, 3, 15, 0⟩).explicit = true) ∧
    ((extract_time_range "hello there" ⟨2024, 3, 15, 0⟩).tstart =
        subDays 45 ⟨2024, 3, 15, 0⟩ ∧
      (extract_time_range "hello there" ⟨2024, 3, 15, 0⟩).explicit = false) := by
  have h1 := (c5_time_range "last month" ⟨2024, 3, 15, 0⟩).1
    (Or.inl (by decide)) (by decide) (by decide) (by decide) (by decide) (by decide)
    (by decide) (by decide) (by decide) (by decide) (by decide)
  have h2 := (c5_time_range "hello there" ⟨2024, 3, 15, 0⟩).2
    (by decide) (by decide) (by decide) (by decide) (by decide) (by decide)
    (by decide) (by decide) (by decide) (by decide) (by decide) (by decide) (by decide)
  refine ⟨⟨?_, ?_, h1.2.2.1⟩, ⟨h2.1, h2.2.2.1⟩⟩
  · rw [h1.1]; decide
  · rw [h1.2.1]

/-- Reordering the interval filter and the type filter of
`transaction_summary` into one conjunctive filter. -/
theorem summary_filter_comm (docs : List Tx) (ty : String) (tstart tend : ℤ) :
    (tsSelected docs tstart tend).filter (fun d => d.transaction_type == ty) =
      docs.filter (fun d => d.transaction_type == ty ∧ tstart ≤ d.t ∧ d.t < tend) := by
  unfold tsSelected
  induction docs with
  | nil => rfl
  | cons a tl ih =>
    by_cases h1 : tstart ≤ a.t ∧ a.t < tend <;> by_cases h2 : a.transaction_type = ty <;>
      simp [List.filter_cons, h1, h2, ih] <;>
      exact List.filter_congr (fun x _ => by rfl)

theorem tsSorted_perm (docs : List Tx) (tstart tend : ℤ) :
    (tsSorted docs tstart tend).Perm (tsSelected docs tstart tend) :=
  List.mergeSort_perm _ _

theorem tsSorted_type_sum (docs : List Tx) (ty : String) (tstart tend : ℤ) :
    (((tsSorted docs tstart tend).filter
        (fun d => d.transaction_type == ty)).map (·.amount)).sum =
      ((docs.filter (fun d =>
        d.transaction_type == ty ∧ tstart ≤ d.t ∧ d.t < tend)).map (·.amount)).sum := by
  rw [← summary_filter_comm]
  exact (((tsSorted_perm docs tstart tend).filter _).map _).sum_eq

/-- The reported totals of `transaction_summary` are exactly the debit and
credit sums over the half-open interval, for whole-cent amounts. -/
theorem transaction_summary_totals (docs : List Tx) (tstart tend limit : ℤ)
    (hc : ∀ tx ∈ docs, ∃ n : ℤ, tx.amount = (n : ℚ) / 100) :
    (transaction_summary docs tstart tend limit).total_debit =
      intervalDebitSum docs tstart tend ∧
    (transaction_summary docs tstart tend limit).total_credit =
      intervalCreditSum docs tstart tend := by
  have hmem : ∀ (ty : String) (x : ℚ),
      x ∈ ((docs.filter (fun d =>
          d.transaction_type == ty ∧ tstart ≤ d.t ∧ d.t < tend)).map (·.amount)) →
        ∃ n : ℤ, x = (n : ℚ) / 100 := by
    intro ty x hx
    simp only [List.mem_map, List.mem_filter] at hx
    obtain ⟨tx, ⟨htx, _⟩, rfl⟩ := hx
    exact hc tx htx
  obtain ⟨md, hmd⟩ := sum_cents _ (hmem "debit")
  obtain ⟨mc, hmc⟩ := sum_cents _ (hmem "credit")
  constructor
  · show pyRound2 (((tsSorted docs tstart tend).filter
        (fun d => d.transaction_type == "debit")).map (·.amount)).sum = _
    rw [tsSorted_type_sum, hmd, pyRound2_cents, intervalDebitSum, ← hmd]
  · show pyRound2 (((tsSorted docs tstart tend).filter
        (fun d => d.transaction_type == "credit")).map (·.amount)).sum = _
    rw [tsSorted_type_sum, hmc, pyRound2_cents, intervalCreditSum, ← hmc]

/-- The reported count of `transaction_summary` is the number of
documents in the half-open interval. -/
theorem transaction_summary_count (docs : List Tx) (tstart tend limit : ℤ) :
    (transaction_summary docs tstart tend limit).transaction_count =
      (docs.filter (fun d => tstart ≤ d.t ∧ d.t < tend)).length := by
  show (tsSorted docs tstart tend).length = _
  rw [tsSorted, List.length_mergeSort]
  rfl

/-- C6: transaction summary interval and limit.  The count is exactly the
number of transactions with timestamp in `[start, end)`; the listed
transactions are at most `max(5, min(limit, 20))` and are the most recent
of the selection (the displayed list is the prefix of the stable
timestamp-descending sort, so every dropped transaction is no newer than
any listed one); the reported totals are the interval debit/credit sums
(for whole-cent amounts); and in the concrete "last week" scenario — ten
20-unit debits inside the parsed range and five outside — the summary
reports count 10, `total_debit = 200`, `total_credit = 0`. -/
theorem c6_transaction_summary (docs : List Tx) (tstart tend limit : ℤ) :
    (transaction_summary docs tstart tend limit).transaction_count =
      (docs.filter (fun d => tstart ≤ d.t ∧ d.t < tend)).length ∧
    (transaction_summary docs tstart tend limit).transactions.length ≤ txCap limit ∧
    List.Pairwise (fun a b => b.t ≤ a.t) (tsSorted docs tstart tend) ∧
    (tsSorted docs tstart tend).Perm (tsSelected docs tstart tend) ∧
    (∀ a ∈ (tsSorted docs tstart tend).take (txCap limit),
      ∀ b ∈ (tsSorted docs tstart tend).drop (txCap limit), b.t ≤ a.t) ∧
    (transaction_summary docs tstart tend limit).transactions =
      ((tsSorted docs tstart tend).take (txCap limit)).map txDisplayOf ∧
    ((∀ tx ∈ docs, ∃ n : ℤ, tx.amount = (n : ℚ) / 100) →
      (transaction_summary docs tstart tend limit).total_debit =
        intervalDebitSum docs tstart tend ∧
      (transaction_summary docs tstart tend limit).total_credit =
        intervalCreditSum docs tstart tend) ∧
    ((transaction_summary lastWeekDocs
        (dtToInstant (extract_time_range "How much did I spend last week?"
          ⟨2024, 3, 15, 0⟩).tstart)
        (dtToInstant (extract_time_range "How much did I spend last week?"
          ⟨2024, 3, 15, 0⟩).tend) 20).transaction_count = 10 ∧
      (transaction_summary lastWeekDocs
        (dtToInstant (extract_time_range "How much did I spend last week?"
          ⟨2024, 3, 15, 0⟩).tstart)
        (dtToInstant (extract_time_range "How much did I spend last week?"
          ⟨2024, 3, 15, 0⟩).tend) 20).total_debit = 200 ∧
      (transaction_summary lastWeekDocs
        (dtToInstant (extract_time_range "How much did I spend last week?"
          ⟨2024, 3, 15, 0⟩).tstart)
        (dtToInstant (extract_time_range "How much did I spend last week?"
          ⟨2024, 3, 15, 0⟩).tend) 20).total_credit = 0) := by
  have hpair : List.Pairwise (fun a b : Tx => b.t ≤ a.t) (tsSorted docs tstart tend) :=
    sortedDesc_pairwise (fun x : Tx => x.t) (tsSelected docs tstart tend)
  refine ⟨transaction_summary_count docs tstart tend limit, ?_, hpair,
    tsSorted_perm docs tstart tend, ?_, rfl, ?_, ?_, ?_, ?_⟩
  · show (((tsSorted docs tstart tend).take (txCap limit)).map txDisplayOf).length ≤ _
    rw [List.length_map]
    exact List.length_take_le _ _
  · have := hpair
    rw [← List.take_append_drop (txCap limit) (tsSorted docs tstart tend)] at this
    exact (List.pairwise_append.mp this).2.2
  · intro hc
    exact transaction_summary_totals docs tstart tend limit hc
  · have e1 : (extract_time_range "How much did I spend last week?"
        ⟨2024, 3, 15, 0⟩).tstart = ⟨2024, 3, 8, 0⟩ := by decide
    have e2 : (extract_time_range "How much did I spend last week?"
        ⟨2024, 3, 15, 0⟩).tend = ⟨2024, 3, 15, 0⟩ := by decide
    rw [e1, e2, transaction_summary_count]
    decide
  · have e1 : (extract_time_range "How much did I spend last week?"
        ⟨2024, 3, 15, 0⟩).tstart = ⟨2024, 3, 8, 0⟩ := by decide
    have e2 : (extract_time_range "How much did I spend last week?"
        ⟨2024, 3, 15, 0⟩).tend = ⟨2024, 3, 15, 0⟩ := by decide
    rw [e1, e2]
    have hc : ∀ tx ∈ lastWeekDocs, ∃ n : ℤ, tx.amount = (n : ℚ) / 100 := by
      intro tx htx
      refine ⟨2000, ?_⟩
      simp only [lastWeekDocs, List.mem_append, List.mem_replicate] at htx
      rcases htx with ⟨_, rfl⟩ | ⟨_, rfl⟩ <;> norm_num
    rw [(transaction_summary_totals lastWeekDocs _ _ 20 hc).1]
    rw [show dtToInstant (⟨2024, 3, 8, 0⟩ : PyDate) = 1709856000 from by decide,
      show dtToInstant (⟨2024, 3, 15, 0⟩ : PyDate) = 1710460800 from by decide]
    simp only [lastWeekDocs, intervalDebitSum,
      show dtToInstant (⟨2024, 3, 10, 0⟩ : PyDate) = 1710028800 from by decide,
      show dtToInstant (⟨2024, 2, 1, 0⟩ : PyDate) = 1706745600 from by decide,
      List.replicate, List.filter_append, List.filter_cons]
    norm_num
  · have e1 : (extract_time_range "How much did I spend last week?"
        ⟨2024, 3, 15, 0⟩).tstart = ⟨2024, 3, 8, 0⟩ := by decide
    have e2 : (extract_time_range "How much did I spend last week?"
        ⟨2024, 3, 15, 0⟩).tend = ⟨2024, 3, 15, 0⟩ := by decide
    rw [e1, e2]
    have hc : ∀ tx ∈ lastWeekDocs, ∃ n : ℤ, tx.amount = (n : ℚ) / 100 := by
      intro tx htx
      refine ⟨2000, ?_⟩
      simp only [lastWeekDocs, List.mem_append, List.mem_replicate] at htx
      rcases htx with ⟨_, rfl⟩ | ⟨_, rfl⟩ <;> norm_num
    rw [(transaction_summary_totals lastWeekDocs _ _ 20 hc).2]
    rw [show dtToInstant (⟨2024, 3, 8, 0⟩ : PyDate) = 1709856000 from by decide,
      show dtToInstant (⟨2024, 3, 15, 0⟩ : PyDate) = 1710460800 from by decide]
    simp only [lastWeekDocs, intervalCreditSum,
      show dtToInstant (⟨2024, 3, 10, 0⟩ : PyDate) = 1710028800 from by decide,
      show dtToInstant (⟨2024, 2, 1, 0⟩ : PyDate) = 1706745600 from by decide,
      List.replicate, List.filter_append, List.filter_cons]
    simp

/-- C6 witness: the summary theorem applied to the concrete scenario
ledger, discharging the whole-cent hypothesis. -/
theorem c6_witness :
    (∀ tx ∈ lastWeekDocs, ∃ n : ℤ, tx.amount = (n : ℚ) / 100) ∧
    (transaction_summary lastWeekDocs 1709856000 1710460800 20).total_debit =
      intervalDebitSum lastWeekDocs 1709856000 1710460800 := by
  have hc : ∀ tx ∈ lastWeekDocs, ∃ n : ℤ, tx.amount = (n : ℚ) / 100 := by
    intro tx htx
    refine ⟨2000, ?_⟩
    simp only [lastWeekDocs, List.mem_append, List.mem_replicate] at htx
    rcases htx with ⟨_, rfl⟩ | ⟨_, rfl⟩ <;> norm_num
  exact ⟨hc,
    ((c6_transaction_summary lastWeekDocs 1709856000 1710460800 20).2.2.2.2.2.2.1 hc).1⟩

/-! ### C4: trace monotonicity and key preservation, stage by stage -/

lemma intentDetectionRun_ok (llmI : Except Unit String) (nowDT : PyDate) :
    StageOk (intentDetectionRun llmI nowDT) :=
  fun s => ⟨⟨_, rfl⟩, fun k hk => by cases k <;> first | rfl | exact hk⟩

lemma userStateRun_ok (env : DbEnv) (nowDT : PyDate) :
    StageOk (userStateRun env nowDT) :=
  fun s => ⟨⟨_, rfl⟩, fun k hk => by cases k <;> first | rfl | exact hk⟩

lemma plannerRun_ok : StageOk plannerRun :=
  fun s => ⟨⟨_, rfl⟩, fun k hk => by cases k <;> first | rfl | exact hk⟩

lemma clarificationRun_ok : StageOk clarificationRun :=
  fun s => ⟨⟨_, rfl⟩, fun k hk => by cases k <;> first | rfl | exact hk⟩

lemma ingestionRun_ok : StageOk ingestionRun :=
  fun s => ⟨⟨_, rfl⟩, fun k hk => by cases k <;> first | rfl | exact hk⟩

lemma categorizationRun_ok : StageOk categorizationRun :=
  fun s => ⟨⟨_, rfl⟩, fun k hk => by cases k <;> first | rfl | exact hk⟩

lemma transactionQueryRun_ok (env : DbEnv) (nowDT : PyDate) :
    StageOk (transactionQueryRun env nowDT) :=
  fun s => ⟨⟨_, rfl⟩, fun k hk => by cases k <;> first | rfl | exact hk⟩

lemma expenseRun_ok : StageOk expenseRun :=
  fun s => ⟨⟨_, rfl⟩, fun k hk => by cases k <;> first | rfl | exact hk⟩

lemma budgetRun_ok : StageOk budgetRun :=
  fun s => ⟨⟨_, rfl⟩, fun k hk => by cases k <;> first | rfl | exact hk⟩

lemma forecastingRun_ok (nowDT : PyDate) : StageOk (forecastingRun nowDT) :=
  fun s => ⟨⟨_, rfl⟩, fun k hk => by cases k <;> first | rfl | exact hk⟩

lemma behaviourRun_ok : StageOk behaviourRun :=
  fun s => ⟨⟨_, rfl⟩, fun k hk => by cases k <;> first | rfl | exact hk⟩

lemma sentimentRun_ok : StageOk sentimentRun :=
  fun s => ⟨⟨_, rfl⟩, fun k hk => by cases k <;> first | rfl | exact hk⟩

lemma investmentRun_ok : StageOk investmentRun :=
  fun s => ⟨⟨_, rfl⟩, fun k hk => by cases k <;> first | rfl | exact hk⟩

lemma learningRun_ok : StageOk learningRun :=
  fun s => ⟨⟨_, rfl⟩, fun k hk => by cases k <;> first | rfl | exact hk⟩

lemma financialHealthRun_ok : StageOk financialHealthRun :=
  fun s => ⟨⟨_, rfl⟩, fun k hk => by cases k <;> first | rfl | exact hk⟩

lemma synthesizerRun_ok (llmS : Except Unit String) :
    StageOk (synthesizerRun llmS) :=
  fun s => ⟨⟨_, rfl⟩, fun k hk => by cases k <;> first | rfl | exact hk⟩

lemma reviewRun_ok : StageOk reviewRun := by
  intro s
  by_cases h : s.needs_human_review.getD false = true
  · have e : reviewRun s =
        { s with
          review_note :=
            some (if s.human_review_reason.getD "policy_guardrail" =
                "investment_readiness_confirmation" then
                "Review needed before applying changes."
              else "Review suggested due to unusually large anomalies.")
          agent_trace := s.agent_trace ++
            ["human_review:" ++ s.human_review_reason.getD "policy_guardrail"] } := by
      unfold reviewRun
      rw [if_neg (by simp [h])]
    rw [e]
    exact ⟨⟨_, rfl⟩, fun k hk => by cases k <;> first | rfl | exact hk⟩
  · have e : reviewRun s = s := by
      unfold reviewRun
      rw [if_pos (by simpa using h)]
    rw [e]
    exact ⟨⟨[], (List.append_nil _).symm⟩, fun k hk => hk⟩

lemma memoryRun_ok : StageOk memoryRun := by
  intro s
  by_cases h : (pyStrip (s.user_id.getD "").data).isEmpty = true
  · have e : memoryRun s = s := by
      unfold memoryRun
      rw [if_pos h]
    rw [e]
    exact ⟨⟨[], (List.append_nil _).symm⟩, fun k hk => hk⟩
  · have e : memoryRun s = { s with agent_trace := s.agent_trace ++ ["memory_update"] } := by
      unfold memoryRun
      rw [if_neg h]
    rw [e]
    exact ⟨⟨_, rfl⟩, fun k hk => by cases k <;> first | rfl | exact hk⟩

lemma finalRun_ok : StageOk finalRun :=
  fun s => ⟨⟨_, rfl⟩, fun k hk => by cases k <;> first | rfl | exact hk⟩

/-- C4: Trace monotonicity invariant — for every stage the orchestrator
can execute and every state, the `agent_trace` after the stage extends
the `agent_trace` before it by appended entries only, and every state
key present before the stage is still present after it. -/
theorem c4_trace_monotone (llmI llmS : Except Unit String) (env : DbEnv)
    (nowDT : PyDate) (f : OState → OState)
    (hf : f ∈ allStages llmI llmS env nowDT) (s : OState) :
    (∃ u, (f s).agent_trace = s.agent_trace ++ u) ∧
    ∀ k : StateKey, hasKey s k = true → hasKey (f s) k = true := by
  have hs : StageOk f := by
    simp only [allStages, List.mem_cons, List.not_mem_nil, or_false] at hf
    rcases hf with rfl|rfl|rfl|rfl|rfl|rfl|rfl|rfl|rfl|rfl|rfl|rfl|rfl|rfl|rfl|rfl|rfl|rfl|rfl
    · exact intentDetectionRun_ok llmI nowDT
    · exact userStateRun_ok env nowDT
    · exact plannerRun_ok
    · exact clarificationRun_ok
    · exact ingestionRun_ok
    · exact categorizationRun_ok
    · exact transactionQueryRun_ok env nowDT
    · exact expenseRun_ok
    · exact budgetRun_ok
    · exact forecastingRun_ok nowDT
    · exact behaviourRun_ok
    · exact sentimentRun_ok
    · exact investmentRun_ok
    · exact learningRun_ok
    · exact financialHealthRun_ok
    · exact synthesizerRun_ok llmS
    · exact reviewRun_ok
    · exact memoryRun_ok
    · exact finalRun_ok
  exact hs s

/-- Witness for C4: the planner stage on the empty state appends to the
trace and preserves every present key. -/
theorem c4_witness :
    (∃ u, (plannerRun {}).agent_trace = ({} : OState).agent_trace ++ u) ∧
    ∀ k : StateKey, hasKey {} k = true → hasKey (plannerRun {}) k = true :=
  c4_trace_monotone (.error ()) (.error ()) env0 now0 plannerRun
    (List.mem_cons_of_mem _ (List.mem_cons_of_mem _ (List.mem_cons_self _ _))) {}

/-! ### C3: the planner short-circuit -/

lemma plannerRun_invest (s : OState)
    (hi : s.intent = some "investment_question")
    (hg : (s.user_state.map (fun u => u.goals)).getD [] = []) :
    (plannerRun s).needs_clarification = some true ∧
    (plannerRun s).plan = some basePlan ∧
    (plannerRun s).agent_trace =
      s.agent_trace ++ ["planner:" ++ String.intercalate "," basePlan] := by
  refine ⟨?_, ?_, ?_⟩ <;> simp [plannerRun, hi, hg]

/-- C3: Planner short-circuit — when the classified intent is
`investment_question`, the message does not mention a horizon and the
aggregated user state has no goals, the orchestrator sets
`needs_clarification` to `some true`, the run's trace is exactly intent
detection, user state, planner, clarification and final response (the
planned stage sequence is skipped), and no analysis stage name starts
any trace entry. -/
theorem c3_planner_short_circuit
    (llmI llmS : Except Unit String) (env : DbEnv) (nowDT : PyDate) (s0 : OState)
    (hint : classifyIntent llmI (pyLower (pyStrip (s0.message.getD "").data)) =
      "investment_question")
    (hhor : containsTok "horizon".data (pyLower (s0.message.getD "").data) = false)
    (hgoals : env.profile.goals = [])
    (htrace : s0.agent_trace = []) :
    (orchestratorRun llmI llmS env nowDT s0).needs_clarification = some true ∧
    (orchestratorRun llmI llmS env nowDT s0).agent_trace =
      ["intent_detection:investment_question", "user_state",
       "planner:ingestion,categorization,transaction_query,expense,budget,forecasting,behaviour,sentiment,investment,learning,financial_health,synthesizer",
       "clarification", "final_response"] ∧
    ∀ name ∈ basePlan, ∀ e ∈ (orchestratorRun llmI llmS env nowDT s0).agent_trace,
      hasPref name.data e.data = false := by
  have hb2 : (userStateRun env nowDT (intentDetectionRun llmI nowDT
      { s0 with citations := some (s0.citations.getD []) })).intent =
      some "investment_question" := by
    show some (classifyIntent llmI (pyLower (pyStrip (s0.message.getD "").data))) = _
    rw [hint]
  have hgo : ((userStateRun env nowDT (intentDetectionRun llmI nowDT
      { s0 with citations := some (s0.citations.getD []) })).user_state.map
        (fun u => u.goals)).getD [] = [] := by
    show env.profile.goals = []
    exact hgoals
  obtain ⟨p1, p2, p3⟩ := plannerRun_invest _ hb2 hgo
  have hcond : (plannerRun (userStateRun env nowDT (intentDetectionRun llmI nowDT
      { s0 with citations := some (s0.citations.getD []) }))).needs_clarification.getD
      false = true := by rw [p1]; rfl
  have hrun : orchestratorRun llmI llmS env nowDT s0 =
      finalRun (clarificationRun (plannerRun (userStateRun env nowDT
        (intentDetectionRun llmI nowDT
          { s0 with citations := some (s0.citations.getD []) })))) := by
    simp only [orchestratorRun]
    rw [if_pos hcond]
  have htrace3 : (userStateRun env nowDT (intentDetectionRun llmI nowDT
      { s0 with citations := some (s0.citations.getD []) })).agent_trace =
      (s0.agent_trace ++ ["intent_detection:" ++
        classifyIntent llmI (pyLower (pyStrip (s0.message.getD "").data))]) ++
        ["user_state"] := rfl
  have hplan : "planner:" ++ String.intercalate "," basePlan =
      "planner:ingestion,categorization,transaction_query,expense,budget,forecasting,behaviour,sentiment,investment,learning,financial_health,synthesizer" := rfl
  have h2 : (orchestratorRun llmI llmS env nowDT s0).agent_trace =
      ["intent_detection:investment_question", "user_state",
       "planner:ingestion,categorization,transaction_query,expense,budget,forecasting,behaviour,sentiment,investment,learning,financial_health,synthesizer",
       "clarification", "final_response"] := by
    rw [hrun]
    show ((plannerRun (userStateRun env nowDT (intentDetectionRun llmI nowDT
      { s0 with citations := some (s0.citations.getD []) }))).agent_trace ++
        ["clarification"]) ++ ["final_response"] = _
    rw [p3, htrace3, htrace, hint, hplan]
    simp
  refine ⟨?_, h2, ?_⟩
  · rw [hrun]
    exact p1
  · have h3 : ∀ name ∈ basePlan,
        ∀ e ∈ ["intent_detection:investment_question", "user_state",
          "planner:ingestion,categorization,transaction_query,expense,budget,forecasting,behaviour,sentiment,investment,learning,financial_health,synthesizer",
          "clarification", "final_response"],
        hasPref name.data e.data = false := by decide
    intro name hn e he
    rw [h2] at he
    exact h3 name hn e he

/-- Witness for C3: the concrete run — intent oracle answering
`investment_question`, empty profile, empty message — asks for
clarification, produces exactly the five-entry trace, and no analysis
stage name starts any trace entry. -/
theorem c3_witness :
    (orchestratorRun (.ok "investment_question") (.error ()) env0 now0 {}).needs_clarification =
      some true ∧
    (orchestratorRun (.ok "investment_question") (.error ()) env0 now0 {}).agent_trace =
      ["intent_detection:investment_question", "user_state",
       "planner:ingestion,categorization,transaction_query,expense,budget,forecasting,behaviour,sentiment,investment,learning,financial_health,synthesizer",
       "clarification", "final_response"] ∧
    ∀ name ∈ basePlan,
      ∀ e ∈ (orchestratorRun (.ok "investment_question") (.error ()) env0 now0 {}).agent_trace,
      hasPref name.data e.data = false :=
  c3_planner_short_circuit (.ok "investment_question") (.error ()) env0 now0 {}
    (by decide) (by decide) rfl rfl

/-! ### C7: the synthesizer fallback is non-empty and deterministic -/

lemma splitLines_ne_nil (s : List Char) : splitLines s ≠ [] := by
  cases s with
  | nil => simp [splitLines]
  | cons c cs =>
    unfold splitLines
    split
    · simp
    · split <;> simp

lemma splitLines_append (pre rest : List Char) (h : '\n' ∉ pre) :
    splitLines (pre ++ '\n' :: rest) = pre :: splitLines rest := by
  induction pre with
  | nil => simp [splitLines]
  | cons c cs ih =>
    have hc : c ≠ '\n' := by intro e; exact h (by simp [e])
    have hcs : '\n' ∉ cs := fun m => h (by simp [m])
    rw [List.cons_append]
    show (if c = '\n' then [] :: splitLines (cs ++ '\n' :: rest)
      else match splitLines (cs ++ '\n' :: rest) with
        | [] => [[c]]
        | l :: ls => (c :: l) :: ls) = (c :: cs) :: splitLines rest
    rw [if_neg hc, ih hcs]

lemma pyStrip_cons_ne_nil (c : Char) (t : List Char) (h : pySpace c = false) :
    pyStrip (c :: t) ≠ [] := by
  unfold pyStrip
  rw [List.dropWhile_cons, if_neg (by simp [h])]
  intro hcon
  rw [List.reverse_eq_nil_iff, List.dropWhile_eq_nil_iff] at hcon
  have := hcon c (by simp)
  simp [h] at this

lemma collapse3_cons (c : Char) (t : List Char) (h : c ≠ '\n') :
    collapse3 (c :: t) = c :: collapse3Aux 0 t := by
  show collapse3Aux 0 (c :: t) = _
  rw [collapse3Aux.eq_def]
  simp [h]

lemma replaceINRAux_cons_ne_nil (fuel : ℕ) (b : Bool) (c : Char) (cs : List Char) :
    replaceINRAux fuel b (c :: cs) ≠ [] := by
  cases fuel with
  | zero => simp [replaceINRAux]
  | succ n =>
    unfold replaceINRAux
    split
    · intro hcon
      rw [List.append_eq_nil] at hcon
      exact absurd hcon.1 (by decide)
    · simp

lemma replaceINR_ne_nil (l : List Char) (h : l ≠ []) : replaceINR l ≠ [] := by
  obtain ⟨c, cs, rfl⟩ := List.exists_cons_of_ne_nil h
  exact replaceINRAux_cons_ne_nil _ _ _ _

lemma replaceRsAux_cons_ne_nil (fuel : ℕ) (b : Bool) (c : Char) (cs : List Char) :
    replaceRsAux fuel b (c :: cs) ≠ [] := by
  cases fuel with
  | zero => simp [replaceRsAux]
  | succ n =>
    unfold replaceRsAux
    split
    · intro hcon
      rw [List.append_eq_nil] at hcon
      exact absurd hcon.1 (by decide)
    · simp

lemma replaceRs_ne_nil (l : List Char) (h : l ≠ []) : replaceRs l ≠ [] := by
  obtain ⟨c, cs, rfl⟩ := List.exists_cons_of_ne_nil h
  exact replaceRsAux_cons_ne_nil _ _ _ _

lemma scrubNetChars_intro_ne (intro rest : List Char)
    (h1 : '\n' ∉ intro) (h2 : lineMatchesNet intro = false)
    (h3 : ∃ c t, intro = c :: t ∧ pySpace c = false ∧ c ≠ '\n') :
    scrubNetChars (intro ++ '\n' :: rest) ≠ [] := by
  obtain ⟨c, t, rfl, hsp, hcn⟩ := h3
  unfold scrubNetChars
  rw [splitLines_append _ _ h1, List.map_cons, if_neg (by simp [h2])]
  have hL : (splitLines rest).map
      (fun l => if lineMatchesNet l then [] else l) ≠ [] := by
    simp [splitLines_ne_nil]
  obtain ⟨x, xs, hx⟩ := List.exists_cons_of_ne_nil hL
  rw [hx]
  have hj : joinLines ((c :: t) :: x :: xs) = c :: (t ++ '\n' :: joinLines (x :: xs)) := by
    simp [joinLines]
  rw [hj, collapse3_cons _ _ hcn]
  exact pyStrip_cons_ne_nil _ _ hsp

lemma fallbackIntro_cases (s : OState) :
    fallbackIntro s =
      "You are doing better than you think. We can keep this simple and safe." ∨
    fallbackIntro s = "Great question. Here is the clearest path." ∨
    fallbackIntro s = "You are on the right track." := by
  unfold fallbackIntro
  split
  · exact Or.inl rfl
  · split
    · exact Or.inr (Or.inl rfl)
    · exact Or.inr (Or.inr rfl)

lemma fallbackIntro_props (s : OState) :
    '\n' ∉ (fallbackIntro s).data ∧ lineMatchesNet (fallbackIntro s).data = false ∧
    ∃ c t, (fallbackIntro s).data = c :: t ∧ pySpace c = false ∧ c ≠ '\n' := by
  rcases fallbackIntro_cases s with h|h|h <;> rw [h]
  · exact ⟨by decide, by decide, 'Y', _, rfl, by decide, by decide⟩
  · exact ⟨by decide, by decide, 'G', _, rfl, by decide, by decide⟩
  · exact ⟨by decide, by decide, 'Y', _, rfl, by decide, by decide⟩

lemma fallbackSummary_shape (s : OState) :
    ∃ R, (fallbackSummary s).data = (fallbackIntro s).data ++ '\n' :: R := by
  have hnl : "\n".data = ['\n'] := rfl
  unfold fallbackSummary
  simp only []
  split
  · simp only [String.data_append, List.append_assoc, hnl, List.singleton_append]
    exact ⟨_, rfl⟩
  · split
    · simp only [List.cons_append, List.nil_append, joinNL, String.data_append,
        List.append_assoc, hnl, List.singleton_append]
      exact ⟨_, rfl⟩
    · simp only [String.data_append, List.append_assoc, hnl, List.singleton_append]
      exact ⟨_, rfl⟩

lemma synthPostProcess_fallback_ne (s : OState) (b : Bool) :
    synthPostProcess b (fallbackSummary s) ≠ "" := by
  obtain ⟨R, hR⟩ := fallbackSummary_shape s
  obtain ⟨hnl, hlm, hex⟩ := fallbackIntro_props s
  have h0 : (if b then (fallbackSummary s).data
      else scrubNetChars (fallbackSummary s).data) ≠ [] := by
    cases b with
    | false =>
      rw [if_neg (by simp), hR]
      exact scrubNetChars_intro_ne _ _ hnl hlm hex
    | true =>
      rw [if_pos rfl, hR]
      simp
  intro hcon
  have h1 : replaceRs (replaceINR (if b then (fallbackSummary s).data
      else scrubNetChars (fallbackSummary s).data)) = [] :=
    congrArg String.data hcon
  exact replaceRs_ne_nil _ (replaceINR_ne_nil _ h0) h1

/-- C7: Synthesizer fallback determinism — when the language-model call
fails, the synthesizer stores the post-processed fallback summary, that
string is non-empty, and two runs on states agreeing on the fields the
fallback and post-processing read (intent, the sentiment, investment,
transaction, health, budget and forecast reports, and the net-cashflow
flag) store byte-for-byte identical strings. -/
theorem c7_fallback_deterministic (s t : OState)
    (h1 : s.intent = t.intent)
    (h2 : s.sentiment_report = t.sentiment_report)
    (h3 : s.investment_report = t.investment_report)
    (h4 : s.transaction_report = t.transaction_report)
    (h5 : s.financial_health_report = t.financial_health_report)
    (h6 : s.budget_report = t.budget_report)
    (h7 : s.forecast_report = t.forecast_report)
    (h8 : s.show_net_cashflow = t.show_net_cashflow) :
    (synthesizerRun (.error ()) s).synthesized_response =
      some (synthPostProcess (s.show_net_cashflow.getD false) (fallbackSummary s)) ∧
    synthPostProcess (s.show_net_cashflow.getD false) (fallbackSummary s) ≠ "" ∧
    (synthesizerRun (.error ()) s).synthesized_response =
      (synthesizerRun (.error ()) t).synthesized_response := by
  refine ⟨rfl, synthPostProcess_fallback_ne s _, ?_⟩
  show some (synthPostProcess (s.show_net_cashflow.getD false) (fallbackSummary s)) =
    some (synthPostProcess (t.show_net_cashflow.getD false) (fallbackSummary t))
  have hf : fallbackSummary s = fallbackSummary t := by
    unfold fallbackSummary
    rw [h1, h2, h3, h4, h5, h6, h7, h8]
  rw [hf, h8]

/-- Witness for C7: on the empty state with a failing model call the
synthesizer stores the non-empty post-processed fallback summary, and
the run is reproducible. -/
theorem c7_witness :
    (synthesizerRun (.error ()) {}).synthesized_response =
      some (synthPostProcess (({} : OState).show_net_cashflow.getD false)
        (fallbackSummary {})) ∧
    synthPostProcess (({} : OState).show_net_cashflow.getD false) (fallbackSummary {}) ≠ "" ∧
    (synthesizerRun (.error ()) {}).synthesized_response =
      (synthesizerRun (.error ()) {}).synthesized_response :=
  c7_fallback_deterministic {} {} rfl rfl rfl rfl rfl rfl rfl rfl
